import Mathlib

/-!
Verification of the ileco1 chatbot complaint intake and triage system.

This file gives a shallow embedding, in Lean, of the complaint-store logic of
the repository (src/actions/app.py, src/actions/actions.py,
src/actions/sms_handler.py) and proves or refutes the specification claims
about it.  Rows of the three family tables (power_outage_reports,
meter_concern, agent_queue) are modelled as structures whose fields mirror the
columns read and written by the code; SQL NULL is `Option.none`, Python
truthiness of a string (`s or d`) is modelled explicitly, and the stable
Timsort used by `list.sort(key=...)` is modelled by a stable insertion sort
(a stable sort with a total preorder key is extensionally unique, so any
stable sort is a faithful model).  Machine floats (latitude / longitude /
accuracy) never influence the verified logic and are carried as opaque display
strings.

Core Lean `String` functions such as `String.toUpper` do not reduce inside the
kernel, so the Python string primitives used by the code (`lower`, `upper`,
`strip`, `in` substring test, slicing, `title`) are re-implemented here on
`List Char`.
-/

/-! ## String primitives (Python `lower`/`upper`/`strip`/`in`/`[:n]`/`title`) -/

def charUpper (c : Char) : Char :=
  if 'a' ≤ c ∧ c ≤ 'z' then Char.ofNat (c.toNat - 32) else c

def charLower (c : Char) : Char :=
  if 'A' ≤ c ∧ c ≤ 'Z' then Char.ofNat (c.toNat + 32) else c

def charIsAlpha (c : Char) : Bool :=
  ('a' ≤ c && c ≤ 'z') || ('A' ≤ c && c ≤ 'Z')

/-- Python `s.upper()`. -/
def strUpper (s : String) : String := ⟨s.data.map charUpper⟩

/-- Python `s.lower()`. -/
def strLower (s : String) : String := ⟨s.data.map charLower⟩

def isSpaceChar (c : Char) : Bool :=
  c == ' ' || c == '\t' || c == '\n' || c == '\r'

/-- Python `s.strip()`. -/
def strTrim (s : String) : String :=
  ⟨((s.data.dropWhile isSpaceChar).reverse.dropWhile isSpaceChar).reverse⟩

def listStartsWith : List Char → List Char → Bool
  | _, [] => true
  | [], _ :: _ => false
  | c :: cs, d :: ds => c == d && listStartsWith cs ds

def hasSubAux : List Char → List Char → Bool
  | [], n => n.isEmpty
  | c :: t, n => listStartsWith (c :: t) n || hasSubAux t n

/-- Python `needle in hay` on strings (substring containment). -/
def containsSub (hay needle : String) : Bool := hasSubAux hay.data needle.data

/-- Python `s.title()`: the first letter of each run of letters is upper-cased,
the following letters lower-cased. -/
def titleAux : Bool → List Char → List Char
  | _, [] => []
  | prevAlpha, c :: cs =>
    (if charIsAlpha c then (if prevAlpha then charLower c else charUpper c) else c)
      :: titleAux (charIsAlpha c) cs

def pyTitle (s : String) : String := ⟨titleAux false s.data⟩

/-- Python `a or b` for strings (empty string is falsy). -/
def pyOrS (a b : String) : String := if a = "" then b else a

/-- Python `row[i] or d` where `row[i]` is a nullable text column. -/
def pyOr (o : Option String) (d : String) : String :=
  match o with
  | none => d
  | some s => if s = "" then d else s

/-- SQL `COALESCE(col, d)` (unlike Python `or`, keeps the empty string). -/
def coal (o : Option String) (d : String) : String := o.getD d

/-- Python truthiness of an optional string slot / field. -/
def pyTruthy (o : Option String) : Bool :=
  match o with
  | none => false
  | some s => s ≠ ""

/-- Python `location.split(',')[0]` (characters before the first comma). -/
def takeUntilComma : List Char → List Char
  | [] => []
  | c :: cs => if c == ',' then [] else c :: takeUntilComma cs

/-! ## Priority Classifier

`app.py` defines `get_priority_from_concern` twice (lines 1860 and 2970); at
call time the second definition is the one bound to the module-level name, so
`submit_power_outage` (line 1998) calls the line-2970 version.  Both are
embedded; the shadowed first definition is kept under a distinct name. -/

/-- The shadowed first definition of `get_priority_from_concern`
(app.py line 1860): critical keywords, everything else HIGH. -/
def get_priority_from_concern_shadowed (concern : Option String) : String :=
  let c := strLower (concern.getD "")
  if ["fire", "explosion", "burning", "smoke", "accident",
      "fallen wire", "electric shock", "live wire", "transformer burst",
      "emergency", "danger", "hazard", "sparking", "exposed wire",
      "electrocuted", "injured", "death", "pole down", "wire down",
      "short circuit", "arcing", "flames"].any (fun w => containsSub c w)
  then "CRITICAL"
  else "HIGH"

def critical_keywords : List String :=
  ["fire", "explosion", "burning", "shock", "emergency", "danger",
   "hazard", "fallen wire", "live wire", "injured", "death"]

/-- The effective module-level `get_priority_from_concern` (app.py line 2970,
the later of the two definitions, hence the one resolved at call time). -/
def get_priority_from_concern (concern : Option String) : String :=
  let c := strLower (concern.getD "")
  if critical_keywords.any (fun w => containsSub c w) then "CRITICAL" else "HIGH"

namespace ActionSubmitTalkToAgentForm

/-- `ActionSubmitTalkToAgentForm.get_priority_from_concern`
(actions.py lines 743-754): four-tier cascade with lower-case results. -/
def get_priority_from_concern (concern : Option String) : String :=
  let c := strLower (concern.getD "")
  if ["emergency", "fire", "fallen", "accident", "hazard"].any
      (fun w => containsSub c w) then "critical"
  else if ["no electricity", "power outage", "blackout"].any
      (fun w => containsSub c w) then "high"
  else if ["billing", "bill", "payment", "follow-up", "follow up"].any
      (fun w => containsSub c w) then "medium"
  else if ["transfer", "new connection", "installation", "application"].any
      (fun w => containsSub c w) then "low"
  else "low"

end ActionSubmitTalkToAgentForm

/-- The fixed always-critical structured incident types
(app.py line 1994, inside `submit_power_outage`). -/
def critical_types : List String := ["fallen_wire", "fire_hazard", "transformer_issue"]

/-- Priority determination of `submit_power_outage` (app.py lines 1993-1998):
structured override to CRITICAL, otherwise the module-level classifier. -/
def submit_power_outage_priority (incident_type details : String) : String :=
  if critical_types.contains incident_type then "CRITICAL"
  else get_priority_from_concern (some details)

/-! ## Complaint Store rows

Fields mirror the columns the embedded code reads or writes; `none` is SQL
NULL.  Timestamps are unix seconds (`Int`); latitude / longitude / accuracy are
opaque strings (floats never influence the verified logic). -/

structure AgentQueueRow where
  id : Nat
  user_id : Option String
  full_name : Option String
  concern : Option String
  contact_number : Option String
  priority : Option String
  timestamp : Option Int
  status : Option String
  latitude : Option String
  longitude : Option String
  accuracy : Option String
  hidden : Option Bool
  resumed : Option Bool
  job_order_id : Option String
deriving Repr, DecidableEq

structure MeterConcernRow where
  id : Nat
  user_id : Option String
  account_no : Option String
  name : Option String
  address : Option String
  contact_number : Option String
  concern : Option String
  timestamp : Option Int
  job_order_id : Option String
  status : Option String
  priority : Option String
  latitude : Option String
  longitude : Option String
  accuracy : Option String
  hidden : Option Bool
  source : Option String
deriving Repr, DecidableEq

structure PowerOutageRow where
  report_id : Nat
  user_id : Option String
  full_name : Option String
  address : Option String
  contact_number : Option String
  job_order_id : Option String
  status : Option String
  issue_type : Option String
  priority : Option String
  source : Option String
  timestamp : Option Int
  latitude : Option String
  longitude : Option String
  accuracy : Option String
  details : Option String
  description : Option String
  hidden : Option Bool
  email : Option String
  account_number : Option String
  incident_type_detail : Option String
  affected_area : Option String
  incident_time : Option String
  duration : Option String
  landmark : Option String
deriving Repr, DecidableEq

/-! ## Stable sort

Python's `list.sort(key=...)` is a stable sort; `stableSort` below is a stable
insertion sort, extensionally equal to it for any total preorder. -/

def insertLe {α : Type} (le : α → α → Bool) (x : α) : List α → List α
  | [] => [x]
  | y :: ys => if le x y then x :: y :: ys else y :: insertLe le x ys

def stableSort {α : Type} (le : α → α → Bool) : List α → List α
  | [] => []
  | x :: xs => insertLe le x (stableSort le xs)

/-- `ORDER BY timestamp DESC` comparator on nullable timestamps
(Postgres sorts NULLs first under DESC). -/
def tsDescLe (a b : Option Int) : Bool :=
  match a, b with
  | none, _ => true
  | some _, none => false
  | some x, some y => y ≤ x

/-! ## Unified Aggregator (`get_unified_complaints`, app.py lines 2312-2631) -/

/-- The aggregator's normalized output unit.  `full_data_timestamp` is the
piece of the row's `full_data` dict that the sort key reads. -/
structure Complaint where
  customer_id : String
  job_order_id : Option String
  issue_type : String
  description : String
  priority : String
  status : String
  source : String
  table : String
  record_id : Nat
  customer_name : String
  customer_phone : String
  full_data_timestamp : Option Int
deriving Repr, DecidableEq

/-- Filter normalization (app.py lines 2318-2320):
`f.strip().upper() if f and f != allValue else None`. -/
def normFilter (raw : Option String) (allValue : String) : Option String :=
  match raw with
  | none => none
  | some s => if s = "" ∨ s = allValue then none else some (strUpper (strTrim s))

/-- Python `if f:` guard on an already-normalized filter: an empty string is
inactive. -/
def activeF (f : Option String) : Option String :=
  match f with
  | none => none
  | some s => if s = "" then none else some s

/-- SQL `col ILIKE '%term%'` (NULL never matches). -/
def ilike (col : Option String) (term : String) : Bool :=
  match col with
  | none => false
  | some s => containsSub (strLower s) (strLower term)

/-- `if search_term:` plus the three-column ILIKE disjunction. -/
def searchGuard (term : Option String) (cols : List (Option String)) : Bool :=
  match activeF term with
  | none => true
  | some t => cols.any (fun c => ilike c t)

/-- `if f: ... AND UPPER(COALESCE(col, d)) = %s`. -/
def eqGuard (f : Option String) (col : Option String) (d : String) : Bool :=
  match activeF f with
  | none => true
  | some v => strUpper (coal col d) == v

/-- `timestamp >= start AND timestamp <= end` (NULL timestamp never matches an
active bound). -/
def rangeGuard (startDT endDT : Option Int) (ts : Option Int) : Bool :=
  (match startDT with
   | none => true
   | some s => match ts with | none => false | some t => s ≤ t) &&
  (match endDT with
   | none => true
   | some e => match ts with | none => false | some t => t ≤ e)

/-- `(hidden = FALSE OR hidden IS NULL)`. -/
def hiddenVisible (h : Option Bool) : Bool :=
  match h with
  | none => true
  | some b => !b

/-- `(resumed = FALSE OR resumed IS NULL)`. -/
def resumedVisible (r : Option Bool) : Bool :=
  match r with
  | none => true
  | some b => !b

/-- Normalized filter bundle passed around inside the aggregator. -/
structure AggFilters where
  statusN : Option String
  priorityN : Option String
  typeN : Option String
  search_term : Option String
  show_hidden : Bool
  start_datetime : Option Int
  end_datetime : Option Int
deriving Repr, DecidableEq

/-- WHERE clause of the agent_queue query (app.py lines 2352-2391).  The
`resumed` exclusion is appended unconditionally; the `hidden` exclusion only
when `show_hidden` is false. -/
def agent_queue_where (f : AggFilters) (r : AgentQueueRow) : Bool :=
  (f.show_hidden || hiddenVisible r.hidden) &&
  resumedVisible r.resumed &&
  searchGuard f.search_term [r.user_id, r.full_name, r.concern] &&
  eqGuard f.statusN r.status "NEW" &&
  eqGuard f.priorityN r.priority "LOW" &&
  rangeGuard f.start_datetime f.end_datetime r.timestamp

/-- WHERE clause of the meter_concern query (app.py lines 2432-2468). -/
def meter_concern_where (f : AggFilters) (r : MeterConcernRow) : Bool :=
  (f.show_hidden || hiddenVisible r.hidden) &&
  searchGuard f.search_term [r.account_no, r.name, r.concern] &&
  eqGuard f.statusN r.status "NEW" &&
  eqGuard f.priorityN r.priority "MEDIUM" &&
  rangeGuard f.start_datetime f.end_datetime r.timestamp

/-- WHERE clause of the power_outage_reports query (app.py lines 2510-2548). -/
def power_outage_where (f : AggFilters) (r : PowerOutageRow) : Bool :=
  (f.show_hidden || hiddenVisible r.hidden) &&
  searchGuard f.search_term [r.full_name, r.address, r.details] &&
  eqGuard f.statusN r.status "NEW" &&
  eqGuard f.priorityN r.priority "HIGH" &&
  rangeGuard f.start_datetime f.end_datetime r.timestamp

/-- Python `(c[:50] + '...') if c and len(c) > 50 else (c or d)`. -/
def descTrunc (c : Option String) (d : String) : String :=
  match c with
  | none => d
  | some s => if s = "" then d else
      if s.data.length > 50 then ⟨s.data.take 50 ++ "...".data⟩ else s

/-- Row normalization for agent_queue (app.py lines 2402-2429). -/
def normalizeAQ (r : AgentQueueRow) : Complaint :=
  { customer_id := pyOr r.user_id "N/A"
    job_order_id := none
    issue_type := "Service"
    description := descTrunc r.concern "Service request"
    priority := strUpper (pyOrS (coal r.priority "LOW") "LOW")
    status := strUpper (pyOrS (coal r.status "NEW") "NEW")
    source := "Agent Request"
    table := "agent_queue"
    record_id := r.id
    customer_name := pyOr r.full_name "Unknown"
    customer_phone := pyOr r.contact_number "N/A"
    full_data_timestamp := r.timestamp }

/-- Row normalization for meter_concern (app.py lines 2477-2507). -/
def normalizeMC (r : MeterConcernRow) : Complaint :=
  { customer_id := pyOr r.account_no "N/A"
    job_order_id := r.job_order_id
    issue_type := "Billing"
    description := descTrunc r.concern "Meter concern"
    priority := strUpper (pyOrS (coal r.priority "MEDIUM") "MEDIUM")
    status := strUpper (pyOrS (coal r.status "NEW") "NEW")
    source := "Chatbot"
    table := "meter_concern"
    record_id := r.id
    customer_name := pyOr r.name "Unknown"
    customer_phone := pyOr r.contact_number "N/A"
    full_data_timestamp := r.timestamp }

/-- Row normalization for power_outage_reports (app.py lines 2557-2588). -/
def normalizePO (r : PowerOutageRow) : Complaint :=
  { customer_id := pyOr r.user_id "N/A"
    job_order_id := r.job_order_id
    issue_type := strUpper (strTrim (pyOrS (coal r.issue_type "Power Outage") "Power Outage"))
    description := pyOr r.details "Power outage reported"
    priority := strUpper (pyOrS (coal r.priority "HIGH") "HIGH")
    status := strUpper (pyOrS (coal r.status "NEW") "NEW")
    source := pyOrS (coal r.source "Outage Report") "Outage Report"
    table := "power_outage_reports"
    record_id := r.report_id
    customer_name := pyOr r.full_name "Unknown"
    customer_phone := pyOr r.contact_number "N/A"
    full_data_timestamp := r.timestamp }

/-- `status_order.get(status, 4)` of `sort_key` (app.py line 2597). -/
def statusOrder (s : String) : Nat :=
  if s = "NEW" then 0 else if s = "ASSIGNED" then 1
  else if s = "IN_PROGRESS" then 2 else if s = "RESOLVED" then 3 else 4

/-- `priority_order.get(priority, 4)` of `sort_key` (app.py line 2598). -/
def priorityOrder (s : String) : Nat :=
  if s = "CRITICAL" then 0 else if s = "HIGH" then 1
  else if s = "MEDIUM" then 2 else if s = "LOW" then 3 else 4

/-- `sort_key` (app.py lines 2596-2617): composite key
`(statusRank, priorityRank, -timestamp_unix)`. -/
def sort_key (c : Complaint) : Nat × Nat × Int :=
  let status := strUpper (strTrim c.status)
  let priority := strUpper (strTrim c.priority)
  let ts : Int := match c.full_data_timestamp with | none => 0 | some t => t
  (statusOrder status, priorityOrder priority, -ts)

/-- Lexicographic order on the composite sort key. -/
def keyLe (x y : Nat × Nat × Int) : Bool :=
  x.1 < y.1 ∨ (x.1 = y.1 ∧ (x.2.1 < y.2.1 ∨ (x.2.1 = y.2.1 ∧ x.2.2 ≤ y.2.2)))

def complaintLe (c d : Complaint) : Bool := keyLe (sort_key c) (sort_key d)

/-- The database contents and outcome of each query issued by the aggregator:
`tables_query` is the `information_schema.tables` lookup (its failure escapes
the per-family loop to the outer handler), the three family fields are the
per-family query outcomes (a failure there is caught per family). -/
structure DBData where
  tables_query : Except String (List String)
  agent_queue : Except String (List AgentQueueRow)
  meter_concern : Except String (List MeterConcernRow)
  power_outage_reports : Except String (List PowerOutageRow)
deriving Repr

/-- `if type_filter_norm and type_filter_norm not in allowed: continue` — the
family-level skip of the issue-type filter. -/
def familySkip (typeN : Option String) (allowed : List String) : Bool :=
  match activeF typeN with
  | none => false
  | some t => !(allowed.contains t)

/-- agent_queue family pass of the loop: the type filter skips the family
whenever set and different from SERVICE; a failed query yields no rows for this
family only. -/
def processAQ (f : AggFilters) (existing : List String)
    (res : Except String (List AgentQueueRow)) : List Complaint :=
  if "agent_queue" ∈ existing ∧ familySkip f.typeN ["SERVICE"] = false then
    match res with
    | .error _ => []
    | .ok rows =>
      ((stableSort (fun a b => tsDescLe a.timestamp b.timestamp)
        (rows.filter (agent_queue_where f))).map normalizeAQ)
  else []

/-- meter_concern family pass of the loop (type filter must be BILLING when set). -/
def processMC (f : AggFilters) (existing : List String)
    (res : Except String (List MeterConcernRow)) : List Complaint :=
  if "meter_concern" ∈ existing ∧ familySkip f.typeN ["BILLING"] = false then
    match res with
    | .error _ => []
    | .ok rows =>
      ((stableSort (fun a b => tsDescLe a.timestamp b.timestamp)
        (rows.filter (meter_concern_where f))).map normalizeMC)
  else []

/-- power_outage_reports family pass (type filter must be POWER OUTAGE or
POWER_OUTAGE when set). -/
def processPO (f : AggFilters) (existing : List String)
    (res : Except String (List PowerOutageRow)) : List Complaint :=
  if "power_outage_reports" ∈ existing ∧
      familySkip f.typeN ["POWER OUTAGE", "POWER_OUTAGE"] = false then
    match res with
    | .error _ => []
    | .ok rows =>
      ((stableSort (fun a b => tsDescLe a.timestamp b.timestamp)
        (rows.filter (power_outage_where f))).map normalizePO)
  else []

/-- `get_unified_complaints` (app.py lines 2312-2631).  `conn = none` models a
failed connection acquisition (early `return []`); a failed
`information_schema` lookup escapes to the outer handler (`return []`); a
failed family query is caught inside the loop and skips that family only; the
date/time filters arrive already combined into unix bounds (the
`parse_datetime_filters` step).  The concatenation order is the loop order
agent_queue, meter_concern, power_outage_reports, and the final sort is the
stable sort by `sort_key`. -/
def get_unified_complaints (conn : Option DBData)
    (status_filter priority_filter type_filter search_term : Option String)
    (show_hidden : Bool) (start_datetime end_datetime : Option Int) :
    List Complaint :=
  match conn with
  | none => []
  | some db =>
    let f : AggFilters :=
      { statusN := normFilter status_filter "All Status"
        priorityN := normFilter priority_filter "All Priorities"
        typeN := normFilter type_filter "All Types"
        search_term := search_term
        show_hidden := show_hidden
        start_datetime := start_datetime
        end_datetime := end_datetime }
    match db.tables_query with
    | .error _ => []
    | .ok existing =>
      stableSort complaintLe
        (processAQ f existing db.agent_queue ++
         processMC f existing db.meter_concern ++
         processPO f existing db.power_outage_reports)

/-! ## Job Order Store and Lifecycle Manager -/

/-- One row of the joblist database's `converted` table (app.py lines
1915-1946).  The SQL column `type` is rendered as `typeCol`. -/
structure ConvertedRow where
  unique_id : String
  -- the SQL columns `type` and `section` are rendered as typeCol / sectionCol
  creator : String
  created : String
  follower : String
  followed : String
  name : String
  spinners : String
  town0 : String
  brgy0 : String
  town : String
  brgy : String
  town2 : String
  brgy2 : String
  assignedto : String
  status : String
  subs : String
  feeder : String
  sectionCol : String
  cause : String
  equip : String
  typeCol : String
  notes : String
  landmark : String
  phone : String
  location : String
  latitude : String
  longitude : String
  actiontaken : String
deriving Repr, DecidableEq

/-- The whole mutable store: the three complaint families (rasa_db) plus the
separate joblist store's `converted` table. -/
structure SysState where
  power_outage_reports : List PowerOutageRow
  meter_concern : List MeterConcernRow
  agent_queue : List AgentQueueRow
  converted : List ConvertedRow
deriving Repr, DecidableEq

/-- The fixed town allow-list of `extract_location_parts` (app.py lines
2995-3001), in dict insertion order (first matching key wins). -/
def townsList : List (String × String) :=
  [("tubungan", "Tubungan"), ("alimodian", "Alimodian"), ("cabatuan", "Cabatuan"),
   ("guimbal", "Guimbal"), ("igbaras", "Igbaras"), ("leganes", "Leganes"),
   ("leon", "Leon"), ("miagao", "Miag-ao"), ("oton", "Oton"), ("pavia", "Pavia"),
   ("san joaquin", "San Joaquin"), ("san miguel", "San Miguel"),
   ("sta barbara", "Sta. Barbara"), ("tigbauan", "Tigbauan")]

/-- `extract_location_parts` (app.py lines 2988-3012): returns
`(barangay.title(), town)` from the lower-cased, stripped address. -/
def extract_location_parts (location : String) : String × String :=
  if location = "" then ("", "")
  else
    let loc := strLower (strTrim location)
    let town := ((townsList.find? (fun kv => containsSub loc kv.1)).map (·.2)).getD ""
    let barangay := strTrim ⟨takeUntilComma loc.data⟩
    (pyTitle barangay, town)

inductive AssignOutcome where
  | ok (converted_unique_id : String) (original_job_order_id : String)
  | err (msg : String)
deriving Repr, DecidableEq

/-- The `converted_data` payload built by `assign_job_order`
(app.py lines 3721-3753) from the fetched complaint fields. -/
def assignConvertedData (cuid now full_name phone location_raw concern
    priority existing_job_order latitude longitude : String) : ConvertedRow :=
  { unique_id := cuid
    creator := pyOrS phone (pyOrS full_name "Dashboard")
    created := now
    follower := pyOrS phone (pyOrS full_name "Unknown")
    followed := now
    name := full_name
    spinners := pyOrS phone ""
    town0 := (extract_location_parts location_raw).2
    brgy0 := (extract_location_parts location_raw).1
    town := "Select Town"
    brgy := "Select Brgy"
    town2 := "Select Town"
    brgy2 := "Select Brgy"
    assignedto := pyOrS (extract_location_parts location_raw).2 ""
    status := "Select Status"
    subs := "Substation"
    feeder := "Feeder"
    sectionCol := "Category"
    cause := concern
    equip := "Equipment"
    typeCol := if ["power", "outage", "emergency"].any
        (fun w => containsSub (strLower concern) w) then "high" else "low"
    notes := if existing_job_order ≠ "" then
        "Original Job Order: " ++ existing_job_order ++ " | Priority: " ++
          priority ++ " | " ++ concern
      else "Priority: " ++ priority ++ " | " ++ concern
    landmark := ""
    phone := phone
    location := location_raw
    latitude := latitude
    longitude := longitude
    actiontaken := "Pending" }

/-- `assign_job_order` (app.py lines 3587-3825).  `converted_unique_id` stands
for `str(uuid.uuid4().int)[:10]`, `now` for the formatted timestamps,
`rasaConnOk` / `joblistConnOk` / `joblistInsertOk` for the outcomes of the two
connection acquisitions and of the joblist INSERT.

The `power_outage_reports` branch of the source (lines 3601-3662) never
assigns `full_name`, `phone`, `location_raw`, `concern`, `priority` or
`existing_job_order`, so the later `extract_location_parts(location_raw)`
(line 3715) raises `UnboundLocalError`, which the outer handler (line 3811)
turns into an error response after a rollback: for that family the endpoint
always fails without writing anything. -/
def assign_job_order (st : SysState) (table : String) (record_id : Nat)
    (converted_unique_id now : String)
    (rasaConnOk joblistConnOk joblistInsertOk : Bool) :
    SysState × AssignOutcome :=
  if ¬ rasaConnOk then (st, .err "Database connection failed")
  else if table = "power_outage_reports" then
    (st, .err "local variable referenced before assignment")
  else if table = "meter_concern" then
    match st.meter_concern.find? (fun r => r.id == record_id) with
    | none => (st, .err "Record not found")
    | some row =>
      let full_name := pyOr row.name "Unknown"
      let phone := pyOr row.contact_number "N/A"
      let location_raw := pyOr row.address "N/A"
      let concern := pyOr row.concern "Meter concern"
      let priority := "MEDIUM"
      let existing_job_order := pyOr row.job_order_id ""
      let cd := assignConvertedData converted_unique_id now full_name phone
        location_raw concern priority existing_job_order
        (pyOr row.latitude "") (pyOr row.longitude "")
      if ¬ joblistConnOk then (st, .err "Joblist database connection failed")
      else if ¬ joblistInsertOk then (st, .err "error inserting into converted table")
      else
        ({ st with
            converted := st.converted ++ [cd]
            meter_concern := st.meter_concern.map (fun r =>
              if r.id == record_id then
                { r with status := some "ASSIGNED",
                         job_order_id := some converted_unique_id }
              else r) },
         .ok converted_unique_id existing_job_order)
  else if table = "agent_queue" then
    match st.agent_queue.find? (fun r => r.id == record_id) with
    | none => (st, .err "Record not found")
    | some row =>
      let full_name := pyOr row.full_name "Unknown"
      let phone := pyOr row.contact_number "N/A"
      let location_raw := ""
      let concern := pyOr row.concern "Service request"
      let priority := pyOr row.priority "LOW"
      let existing_job_order := pyOr row.job_order_id ""
      let cd := assignConvertedData converted_unique_id now full_name phone
        location_raw concern priority existing_job_order
        (pyOr row.latitude "") (pyOr row.longitude "")
      if ¬ joblistConnOk then (st, .err "Joblist database connection failed")
      else if ¬ joblistInsertOk then (st, .err "error inserting into converted table")
      else
        ({ st with
            converted := st.converted ++ [cd]
            agent_queue := st.agent_queue.map (fun r =>
              if r.id == record_id then
                { r with status := some "ASSIGNED",
                         job_order_id := some converted_unique_id }
              else r) },
         .ok converted_unique_id existing_job_order)
  else (st, .err "Invalid table name")

/-! ## Status update, hide, delete, resume -/

inductive UpdateOutcome where
  | ok (old_status : Option String) (new_status : String)
  | err (msg : String)
deriving Repr, DecidableEq

def valid_statuses : List String := ["NEW", "ASSIGNED", "IN_PROGRESS", "RESOLVED"]

def invalid_status_msg : String :=
  "Invalid status. Must be one of: NEW, ASSIGNED, IN_PROGRESS, RESOLVED"

/-- `update_status` (app.py lines 4246-4333).  The request body's `status`
value is normalized by `.strip().upper()`; an unknown status is rejected
before any database access; a missing record is a distinct error; on success
the row's status is updated and the outcome carries the prior raw status value
for the `broadcast_status_update(table, record_id, old, new)` event.  An
unknown table name makes the SQL fail and surfaces as a caught error. -/
def update_status (st : SysState) (table : String) (record_id : Nat)
    (payload_status : Option String) : SysState × UpdateOutcome :=
  let new_status := strUpper (strTrim (payload_status.getD ""))
  if new_status = "" then (st, .err "Status is required")
  else if ¬ valid_statuses.contains new_status then (st, .err invalid_status_msg)
  else if table = "power_outage_reports" then
    match st.power_outage_reports.find? (fun r => r.report_id == record_id) with
    | none => (st, .err "Record not found")
    | some row =>
      ({ st with power_outage_reports := st.power_outage_reports.map (fun r =>
          if r.report_id == record_id then { r with status := some new_status } else r) },
       .ok row.status new_status)
  else if table = "meter_concern" then
    match st.meter_concern.find? (fun r => r.id == record_id) with
    | none => (st, .err "Record not found")
    | some row =>
      ({ st with meter_concern := st.meter_concern.map (fun r =>
          if r.id == record_id then { r with status := some new_status } else r) },
       .ok row.status new_status)
  else if table = "agent_queue" then
    match st.agent_queue.find? (fun r => r.id == record_id) with
    | none => (st, .err "Record not found")
    | some row =>
      ({ st with agent_queue := st.agent_queue.map (fun r =>
          if r.id == record_id then { r with status := some new_status } else r) },
       .ok row.status new_status)
  else (st, .err "relation does not exist")

inductive HideOutcome where
  | ok (msg : String)
  | err (msg : String)
deriving Repr, DecidableEq

/-- The three complaint tables of the store (used by the existence checks of
`hide_complaint` and `delete_complaint`). -/
def complaint_tables : List String :=
  ["power_outage_reports", "meter_concern", "agent_queue"]

/-- `hide_complaint` (app.py lines 4335-4385): table existence check, record
existence check, then `SET hidden = TRUE` unconditionally (idempotent). -/
def hide_complaint (st : SysState) (table : String) (record_id : Nat) :
    SysState × HideOutcome :=
  if ¬ complaint_tables.contains table then
    (st, .err ("Table " ++ table ++ " does not exist"))
  else if table = "power_outage_reports" then
    match st.power_outage_reports.find? (fun r => r.report_id == record_id) with
    | none => (st, .err "Complaint not found")
    | some _ =>
      ({ st with power_outage_reports := st.power_outage_reports.map (fun r =>
          if r.report_id == record_id then { r with hidden := some true } else r) },
       .ok "Complaint hidden successfully (can be shown again with Show Hidden checkbox)")
  else if table = "meter_concern" then
    match st.meter_concern.find? (fun r => r.id == record_id) with
    | none => (st, .err "Complaint not found")
    | some _ =>
      ({ st with meter_concern := st.meter_concern.map (fun r =>
          if r.id == record_id then { r with hidden := some true } else r) },
       .ok "Complaint hidden successfully (can be shown again with Show Hidden checkbox)")
  else
    match st.agent_queue.find? (fun r => r.id == record_id) with
    | none => (st, .err "Complaint not found")
    | some _ =>
      ({ st with agent_queue := st.agent_queue.map (fun r =>
          if r.id == record_id then { r with hidden := some true } else r) },
       .ok "Complaint hidden successfully (can be shown again with Show Hidden checkbox)")

/-- `delete_complaint` (app.py lines 4076-4145): the soft-delete alias of
hide; validates the table against the allow-list, requires the record to
exist, then `SET hidden = TRUE`. -/
def delete_complaint (st : SysState) (table : String) (record_id : Nat) :
    SysState × HideOutcome :=
  if ¬ complaint_tables.contains table then (st, .err "Invalid table name")
  else if table = "power_outage_reports" then
    match st.power_outage_reports.find? (fun r => r.report_id == record_id) with
    | none => (st, .err "Record not found")
    | some _ =>
      ({ st with power_outage_reports := st.power_outage_reports.map (fun r =>
          if r.report_id == record_id then { r with hidden := some true } else r) },
       .ok "Complaint removed successfully")
  else if table = "meter_concern" then
    match st.meter_concern.find? (fun r => r.id == record_id) with
    | none => (st, .err "Record not found")
    | some _ =>
      ({ st with meter_concern := st.meter_concern.map (fun r =>
          if r.id == record_id then { r with hidden := some true } else r) },
       .ok "Complaint removed successfully")
  else
    match st.agent_queue.find? (fun r => r.id == record_id) with
    | none => (st, .err "Record not found")
    | some _ =>
      ({ st with agent_queue := st.agent_queue.map (fun r =>
          if r.id == record_id then { r with hidden := some true } else r) },
       .ok "Complaint removed successfully")

/-- `resume_conversation` (app.py lines 4040-4073): if the row exists and its
`user_id` is truthy, sets `resumed = TRUE` on it (the outbound Rasa call does
not affect the update). -/
def resume_conversation (rows : List AgentQueueRow) (row_id : Nat) :
    List AgentQueueRow :=
  match rows.find? (fun r => r.id == row_id) with
  | none => rows
  | some r =>
    if pyTruthy r.user_id then
      rows.map (fun q => if q.id == row_id then { q with resumed := some true } else q)
    else rows

/-! ## Intake Adapters -/

/-- Python `f"{o}"` on a nullable value. -/
def optStr (o : Option String) : String :=
  match o with
  | none => "None"
  | some s => s

/-- `timestamp::date`: the calendar day of a unix timestamp. -/
def dayOf (t : Int) : Int := Int.fdiv t 86400

/-- `WHERE address = %s AND timestamp::date = CURRENT_DATE` of the chatbot
outage dedup query (actions.py lines 143-149); SQL `= NULL` never matches. -/
def sameDayAddr (po_address : Option String) (today : Int)
    (r : PowerOutageRow) : Bool :=
  (match po_address, r.address with
   | some a, some b => a == b
   | _, _ => false) &&
  (match r.timestamp with
   | none => false
   | some t => dayOf t == today)

/-- `existing[2] not in ['RESOLVED', 'FINISHED']` (actions.py line 152);
Python `None not in [...]` is true, so a NULL status also dedups. -/
def notResolvedOrFinished (s : Option String) : Bool :=
  !(s == some "RESOLVED" || s == some "FINISHED")

structure ChatOutageResult where
  rows : List PowerOutageRow
  job_order_id : Option String
  inserted : Bool
deriving Repr, DecidableEq

/-- `ActionSubmitPowerOutageFormEnhanced.run` (actions.py lines 120-215).
Looks up the most recent same-address same-calendar-day report; if one exists
whose status is not RESOLVED / FINISHED, answers with its `job_order_id` and
inserts nothing; otherwise inserts a fresh row with a fresh
`JO-YYYYMMDD-NNNN` identifier, issue type POWER OUTAGE, priority HIGH, status
NEW, source Chatbot.  `new_job_order_id` stands for the generated identifier,
`new_report_id` for the serial primary key, `today` for CURRENT_DATE and
`dbOk` for the outcome of the connection attempt (an exception writes
nothing). -/
def action_submit_power_outage_form (rows : List PowerOutageRow)
    (po_full_name po_address po_contact_number : Option String)
    (user_id : String) (new_report_id : Nat) (new_job_order_id : String)
    (now today : Int) (dbOk : Bool) : ChatOutageResult :=
  if ¬ dbOk then { rows := rows, job_order_id := none, inserted := false }
  else
    match (stableSort (fun a b => tsDescLe a.timestamp b.timestamp)
        (rows.filter (sameDayAddr po_address today))).head? with
    | some existing =>
      if notResolvedOrFinished existing.status then
        { rows := rows, job_order_id := existing.job_order_id, inserted := false }
      else
        { rows := rows ++ [{
            report_id := new_report_id, user_id := some user_id,
            full_name := po_full_name, address := po_address,
            contact_number := po_contact_number,
            job_order_id := some new_job_order_id,
            status := some "NEW", issue_type := some "POWER OUTAGE",
            priority := some "HIGH", source := some "Chatbot",
            timestamp := some now, latitude := none, longitude := none,
            accuracy := none, details := none,
            description := some ("Power outage reported at " ++ optStr po_address),
            hidden := none, email := none, account_number := none,
            incident_type_detail := none, affected_area := none,
            incident_time := none, duration := none, landmark := none }],
          job_order_id := some new_job_order_id, inserted := true }
    | none =>
        { rows := rows ++ [{
            report_id := new_report_id, user_id := some user_id,
            full_name := po_full_name, address := po_address,
            contact_number := po_contact_number,
            job_order_id := some new_job_order_id,
            status := some "NEW", issue_type := some "POWER OUTAGE",
            priority := some "HIGH", source := some "Chatbot",
            timestamp := some now, latitude := none, longitude := none,
            accuracy := none, details := none,
            description := some ("Power outage reported at " ++ optStr po_address),
            hidden := none, email := none, account_number := none,
            incident_type_detail := none, affected_area := none,
            incident_time := none, duration := none, landmark := none }],
          job_order_id := some new_job_order_id, inserted := true }

/-- `ActionSubmitMeterConcern.run` (actions.py lines 347-418): requires all
five slots truthy, then inserts one row with priority MEDIUM and status
PENDING. -/
def action_submit_meter_concern (rows : List MeterConcernRow)
    (mc_account_no mc_full_name mc_address mc_contact_number
     mc_meter_concern : Option String)
    (user_id : String) (new_id : Nat) (new_job_order_id : String)
    (now : Int) (dbOk : Bool) : List MeterConcernRow × Bool :=
  if ¬ (pyTruthy mc_account_no ∧ pyTruthy mc_full_name ∧ pyTruthy mc_address ∧
        pyTruthy mc_contact_number ∧ pyTruthy mc_meter_concern) then
    (rows, false)
  else if ¬ dbOk then (rows, false)
  else
    (rows ++ [{
       id := new_id, user_id := some user_id,
       account_no := mc_account_no, name := mc_full_name,
       address := mc_address, contact_number := mc_contact_number,
       concern := mc_meter_concern, timestamp := some now,
       job_order_id := some new_job_order_id,
       status := some "PENDING", priority := some "MEDIUM",
       latitude := none, longitude := none, accuracy := none,
       hidden := none, source := some "Chatbot" }],
     true)

/-- `ActionSubmitTalkToAgentForm.run` (actions.py lines 672-741): classifies
the concern, requires name / contact / concern truthy, then inserts one row
with status `'Pending'`. -/
def action_submit_talk_to_agent_form (rows : List AgentQueueRow)
    (tta_full_name tta_concern tta_contact_number : Option String)
    (user_id : String) (new_id : Nat) (now : Int) (dbOk : Bool) :
    List AgentQueueRow × Bool :=
  let priority := ActionSubmitTalkToAgentForm.get_priority_from_concern tta_concern
  if ¬ (pyTruthy tta_full_name ∧ pyTruthy tta_contact_number ∧ pyTruthy tta_concern)
  then (rows, false)
  else if ¬ dbOk then (rows, false)
  else
    (rows ++ [{
       id := new_id, user_id := some user_id,
       full_name := tta_full_name, concern := tta_concern,
       contact_number := tta_contact_number,
       priority := some priority, timestamp := some now,
       status := some "Pending", latitude := none, longitude := none,
       accuracy := none, hidden := none, resumed := none,
       job_order_id := none }],
     true)

/-- Python `s.replace('_', ' ')`. -/
def replaceUnderscore (s : String) : String :=
  ⟨s.data.map (fun c => if c == '_' then ' ' else c)⟩

inductive WebSubmitOutcome where
  | ok (report_id : Nat) (job_order_field : String) (priority : String)
  | err (msg : String)
deriving Repr, DecidableEq

/-- The `converted_data` payload of the automatic job order created by
`submit_power_outage` (app.py lines 2083-2112).  Note the source's
`'type': 'high' if priority == 'CRITICAL' else 'high'` is constantly high. -/
def webConvertedData (uniqueId nowStr full_name contact_number address
    incident_type affected_area details landmark priority
    latStr lngStr : String) : ConvertedRow :=
  { unique_id := uniqueId
    creator := pyOrS contact_number full_name
    created := nowStr
    follower := pyOrS contact_number full_name
    followed := nowStr
    name := full_name
    spinners := contact_number
    town0 := (extract_location_parts address).2
    brgy0 := (extract_location_parts address).1
    town := "Select Town"
    brgy := "Select Brgy"
    town2 := "Select Town"
    brgy2 := "Select Brgy"
    assignedto := pyOrS (extract_location_parts address).2 ""
    status := "Select Status"
    subs := "Substation"
    feeder := "Feeder"
    sectionCol := "Category"
    cause := pyTitle (replaceUnderscore incident_type) ++ ": " ++ details
    equip := "Equipment"
    typeCol := "high"
    notes := "Priority: " ++ priority ++ " | Type: " ++ incident_type ++
      " | Area: " ++ affected_area ++ " | " ++ details
    landmark := pyOrS landmark ""
    phone := contact_number
    location := address
    latitude := latStr
    longitude := lngStr
    actiontaken := "Pending" }

/-- The report row inserted by `submit_power_outage` (app.py lines 2013-2042):
status NEW, issue type Power Outage, no job order yet. -/
def webInsertRow
    (d_full_name d_contact_number d_email d_account_number d_address
     d_latitude d_longitude d_accuracy
     d_incident_type d_affected_area d_incident_time d_duration
     d_details d_landmark d_source : Option String)
    (new_report_id : Nat) (now : Int) : PowerOutageRow :=
  { report_id := new_report_id, user_id := none,
    full_name := some (strTrim (d_full_name.getD "")),
    address := some (strTrim (d_address.getD "")),
    contact_number := some (strTrim (d_contact_number.getD "")),
    job_order_id := none,
    status := some "NEW", issue_type := some "Power Outage",
    priority := some (submit_power_outage_priority (d_incident_type.getD "power_outage")
      (strTrim (d_details.getD ""))),
    source := some (d_source.getD "Web Form"),
    timestamp := some now, latitude := d_latitude,
    longitude := d_longitude, accuracy := d_accuracy,
    details := some (strTrim (d_details.getD "")), description := none, hidden := none,
    email := some (strTrim (d_email.getD "")),
    account_number := some (strTrim (d_account_number.getD "")),
    incident_type_detail := some (d_incident_type.getD "power_outage"),
    affected_area := some (d_affected_area.getD "unknown"),
    incident_time := some (d_incident_time.getD ""),
    duration := some (d_duration.getD "just_now"),
    landmark := some (strTrim (d_landmark.getD "")) }

/-- `submit_power_outage` (app.py lines 1961-2168), the public web-form intake.
Validates required fields, classifies priority (structured override then the
module-level classifier), inserts the report with status NEW, and for
CRITICAL / HIGH priority writes an automatic job order to the joblist store
first and only then links it back onto the report; a missing joblist
connection or a failed joblist insert is swallowed and leaves
`job_order_id` NULL.  No duplicate lookup of any kind is performed. -/
def submit_power_outage (st : SysState)
    (d_full_name d_contact_number d_email d_account_number d_address
     d_latitude d_longitude d_accuracy
     d_incident_type d_affected_area d_incident_time d_duration
     d_details d_landmark d_source : Option String)
    (new_report_id : Nat) (uniqueId : String) (now : Int) (nowStr : String)
    (rasaConnOk joblistConnOk joblistInsertOk : Bool) :
    SysState × WebSubmitOutcome :=
  let full_name := strTrim (d_full_name.getD "")
  let contact_number := strTrim (d_contact_number.getD "")
  let email := strTrim (d_email.getD "")
  let account_number := strTrim (d_account_number.getD "")
  let address := strTrim (d_address.getD "")
  let incident_type := d_incident_type.getD "power_outage"
  let affected_area := d_affected_area.getD "unknown"
  let incident_time := d_incident_time.getD ""
  let duration := d_duration.getD "just_now"
  let details := strTrim (d_details.getD "")
  let landmark := strTrim (d_landmark.getD "")
  let source := d_source.getD "Web Form"
  if ¬ (full_name ≠ "" ∧ contact_number ≠ "" ∧ address ≠ "" ∧ details ≠ "" ∧
        pyTruthy d_latitude ∧ pyTruthy d_longitude) then
    (st, .err "Missing required fields")
  else
    let priority := submit_power_outage_priority incident_type details
    if ¬ rasaConnOk then (st, .err "Database connection failed")
    else
      let row : PowerOutageRow := {
        report_id := new_report_id, user_id := none,
        full_name := some full_name, address := some address,
        contact_number := some contact_number, job_order_id := none,
        status := some "NEW", issue_type := some "Power Outage",
        priority := some priority, source := some source,
        timestamp := some now, latitude := d_latitude,
        longitude := d_longitude, accuracy := d_accuracy,
        details := some details, description := none, hidden := none,
        email := some email, account_number := some account_number,
        incident_type_detail := some incident_type,
        affected_area := some affected_area,
        incident_time := some incident_time, duration := some duration,
        landmark := some landmark }
      let st1 := { st with
        power_outage_reports := st.power_outage_reports ++ [row] }
      if priority = "CRITICAL" ∨ priority = "HIGH" then
        if joblistConnOk ∧ joblistInsertOk then
          let cd := webConvertedData uniqueId nowStr full_name contact_number
            address incident_type affected_area details landmark priority
            (optStr d_latitude) (optStr d_longitude)
          ({ st1 with
              converted := st1.converted ++ [cd]
              power_outage_reports := st1.power_outage_reports.map (fun r =>
                if r.report_id == new_report_id then
                  { r with job_order_id := some uniqueId } else r) },
           .ok new_report_id uniqueId priority)
        else (st1, .ok new_report_id "Will be assigned by operator" priority)
      else (st1, .ok new_report_id "Will be assigned by operator" priority)

/-- The parsed payload produced by `SMSParser.parse_sms`
(sms_handler.py lines 43-87). -/
structure ParsedSMS where
  issue_type : String
  full_name : String
  address : String
  contact_number : String
  details : String
  priority : String
  from_number : String
deriving Repr, DecidableEq

/-- Zero-padded reference numbers (`f"PO-{record_id:06d}"` etc.). -/
def pad6 (n : Nat) : String :=
  let s := toString n
  ⟨List.replicate (6 - s.data.length) '0' ++ s.data⟩

/-- The insert dispatch of `sms_webhook` (sms_handler.py lines 195-260): every
branch inserts with status NEW; the BILLING branch hard-codes priority MEDIUM
and the account number `'N/A'`. -/
def sms_webhook_insert (st : SysState) (p : ParsedSMS) (new_id : Nat)
    (now : Int) : SysState × String :=
  if p.issue_type = "POWER OUTAGE" then
    ({ st with power_outage_reports := st.power_outage_reports ++ [{
        report_id := new_id, user_id := none,
        full_name := some p.full_name, address := some p.address,
        contact_number := some p.contact_number, job_order_id := none,
        status := some "NEW", issue_type := some "Power Outage",
        priority := some p.priority, source := some "SMS",
        timestamp := some now, latitude := none, longitude := none,
        accuracy := none, details := some p.details, description := none,
        hidden := none, email := none, account_number := none,
        incident_type_detail := none, affected_area := none,
        incident_time := none, duration := none, landmark := none }] },
     "PO-" ++ pad6 new_id)
  else if p.issue_type = "BILLING" then
    ({ st with meter_concern := st.meter_concern ++ [{
        id := new_id, user_id := none, account_no := some "N/A",
        name := some p.full_name, address := some p.address,
        contact_number := some p.contact_number, concern := some p.details,
        timestamp := some now, job_order_id := none,
        status := some "NEW", priority := some "MEDIUM",
        latitude := none, longitude := none, accuracy := none,
        hidden := none, source := some "SMS" }] },
     "BC-" ++ pad6 new_id)
  else
    ({ st with agent_queue := st.agent_queue ++ [{
        id := new_id, user_id := some p.from_number,
        full_name := some p.full_name, concern := some p.details,
        contact_number := some p.contact_number,
        priority := some p.priority, timestamp := some now,
        status := some "NEW", latitude := none, longitude := none,
        accuracy := none, hidden := none, resumed := none,
        job_order_id := none }] },
     "SR-" ++ pad6 new_id)

/-! ## The public mutation contract as one operation type (for the hide
invariant of the dashboard). -/

inductive DashOp where
  | updStatus (table : String) (record_id : Nat) (payload : Option String)
  | hide (table : String) (record_id : Nat)
  | softDelete (table : String) (record_id : Nat)
  | assign (table : String) (record_id : Nat) (cuid now : String)
      (rOk jcOk jiOk : Bool)
  | resume (row_id : Nat)
  | webOutage (d_full_name d_contact_number d_email d_account_number d_address
      d_latitude d_longitude d_accuracy d_incident_type d_affected_area
      d_incident_time d_duration d_details d_landmark d_source : Option String)
      (new_report_id : Nat) (uniqueId : String) (now : Int) (nowStr : String)
      (rasaConnOk joblistConnOk joblistInsertOk : Bool)
  | chatOutage (po_full_name po_address po_contact_number : Option String)
      (user_id : String) (new_report_id : Nat) (njoid : String)
      (now today : Int) (dbOk : Bool)
  | chatMeter (mc_account_no mc_full_name mc_address mc_contact_number
      mc_meter_concern : Option String) (user_id : String) (new_id : Nat)
      (njoid : String) (now : Int) (dbOk : Bool)
  | chatAgent (tta_full_name tta_concern tta_contact_number : Option String)
      (user_id : String) (new_id : Nat) (now : Int) (dbOk : Bool)
  | smsIn (p : ParsedSMS) (new_id : Nat) (now : Int)

/-- State effect of each operation of the public mutation contract. -/
def applyDashOp (st : SysState) : DashOp → SysState
  | .updStatus t id p => (update_status st t id p).1
  | .hide t id => (hide_complaint st t id).1
  | .softDelete t id => (delete_complaint st t id).1
  | .assign t id cuid now rOk jcOk jiOk =>
      (assign_job_order st t id cuid now rOk jcOk jiOk).1
  | .resume rid => { st with agent_queue := resume_conversation st.agent_queue rid }
  | .webOutage a b c d e f g h i j k l m n o nid uid now nowStr r1 r2 r3 =>
      (submit_power_outage st a b c d e f g h i j k l m n o nid uid now nowStr r1 r2 r3).1
  | .chatOutage n a c uid nid njoid now today ok =>
      { st with power_outage_reports :=
          (action_submit_power_outage_form st.power_outage_reports n a c uid
            nid njoid now today ok).rows }
  | .chatMeter a b c d e uid nid njoid now ok =>
      { st with meter_concern :=
          (action_submit_meter_concern st.meter_concern a b c d e uid nid
            njoid now ok).1 }
  | .chatAgent a b c uid nid now ok =>
      { st with agent_queue :=
          (action_submit_talk_to_agent_form st.agent_queue a b c uid nid
            now ok).1 }
  | .smsIn p nid now => (sms_webhook_insert st p nid now).1

/-! ## Concrete fixtures used by the claim theorems and witnesses -/

/-- A power-outage row with everything defaulted. -/
def poBase : PowerOutageRow :=
  { report_id := 0, user_id := none, full_name := none, address := none,
    contact_number := none, job_order_id := none, status := none,
    issue_type := none, priority := none, source := none, timestamp := none,
    latitude := none, longitude := none, accuracy := none, details := none,
    description := none, hidden := none, email := none, account_number := none,
    incident_type_detail := none, affected_area := none, incident_time := none,
    duration := none, landmark := none }

/-- A meter-concern row with everything defaulted. -/
def mcBase : MeterConcernRow :=
  { id := 0, user_id := none, account_no := none, name := none, address := none,
    contact_number := none, concern := none, timestamp := none,
    job_order_id := none, status := none, priority := none, latitude := none,
    longitude := none, accuracy := none, hidden := none, source := none }

/-- An agent-queue row with everything defaulted. -/
def aqBase : AgentQueueRow :=
  { id := 0, user_id := none, full_name := none, concern := none,
    contact_number := none, priority := none, timestamp := none, status := none,
    latitude := none, longitude := none, accuracy := none, hidden := none,
    resumed := none, job_order_id := none }

/-- The three synthetic complaints of the aggregation-ordering example:
statuses RESOLVED / NEW / NEW, priorities CRITICAL / LOW / HIGH. -/
def exampleMergeDB : DBData :=
  { tables_query := .ok ["power_outage_reports"]
    agent_queue := .ok []
    meter_concern := .ok []
    power_outage_reports := .ok
      [{ poBase with report_id := 1, status := some "RESOLVED",
                     priority := some "CRITICAL", timestamp := some 1000 },
       { poBase with report_id := 2, status := some "NEW",
                     priority := some "LOW", timestamp := some 1000 },
       { poBase with report_id := 3, status := some "NEW",
                     priority := some "HIGH", timestamp := some 1000 }] }

/-- A meter-concern record that already carries a job order (for the
re-assignment analysis). -/
def mcRowOld : MeterConcernRow :=
  { mcBase with
      id := 1
      name := some "Juan Cruz"
      address := some "Brgy. Bacan, Cabatuan"
      contact_number := some "09171234567"
      concern := some "defective meter"
      job_order_id := some "JO-20250101-1234" }

def stC2 : SysState :=
  { power_outage_reports := [], meter_concern := [mcRowOld],
    agent_queue := [], converted := [] }

/-- An unresolved outage report of calendar day 0 (for the dedup analysis). -/
def poRowToday : PowerOutageRow :=
  { poBase with
      report_id := 1
      full_name := some "Juan Cruz"
      address := some "Brgy. Bacan, Cabatuan, Iloilo"
      contact_number := some "09171234567"
      timestamp := some 1000
      status := some "NEW"
      job_order_id := some "JO-20250101-0007" }

def stC3 : SysState :=
  { power_outage_reports := [poRowToday], meter_concern := [],
    agent_queue := [], converted := [] }

/-! ## Generic lemmas on the stable sort and on list lookup -/

theorem insertLe_nil {α : Type} (le : α → α → Bool) (x : α) :
    insertLe le x [] = [x] := rfl

theorem insertLe_cons {α : Type} (le : α → α → Bool) (x y : α) (ys : List α) :
    insertLe le x (y :: ys) =
      if le x y then x :: y :: ys else y :: insertLe le x ys := rfl

theorem stableSort_nil {α : Type} (le : α → α → Bool) :
    stableSort le ([] : List α) = [] := rfl

theorem stableSort_cons {α : Type} (le : α → α → Bool) (x : α) (xs : List α) :
    stableSort le (x :: xs) = insertLe le x (stableSort le xs) := rfl

theorem insertLe_perm {α : Type} (le : α → α → Bool) (x : α) :
    ∀ l : List α, (insertLe le x l).Perm (x :: l) := by
  intro l
  induction l with
  | nil => rw [insertLe_nil]
  | cons y ys ih =>
    rw [insertLe_cons]
    by_cases h : le x y = true
    · rw [if_pos h]
    · rw [if_neg h]
      exact (ih.cons y).trans (List.Perm.swap x y ys)

theorem stableSort_perm {α : Type} (le : α → α → Bool) :
    ∀ l : List α, (stableSort le l).Perm l := by
  intro l
  induction l with
  | nil => rw [stableSort_nil]
  | cons x xs ih =>
    rw [stableSort_cons]
    exact (insertLe_perm le x (stableSort le xs)).trans (ih.cons x)

theorem mem_stableSort {α : Type} (le : α → α → Bool) (l : List α) (a : α) :
    a ∈ stableSort le l ↔ a ∈ l :=
  (stableSort_perm le l).mem_iff

theorem mem_insertLe {α : Type} (le : α → α → Bool) (x : α) (l : List α) (a : α) :
    a ∈ insertLe le x l ↔ a = x ∨ a ∈ l := by
  rw [(insertLe_perm le x l).mem_iff]; simp

theorem pairwise_insertLe {α : Type} (le : α → α → Bool)
    (htot : ∀ a b, le a b = true ∨ le b a = true)
    (htrans : ∀ a b c, le a b = true → le b c = true → le a c = true)
    (x : α) : ∀ l : List α, l.Pairwise (fun a b => le a b = true) →
    (insertLe le x l).Pairwise (fun a b => le a b = true) := by
  intro l
  induction l with
  | nil => intro _; simp [insertLe]
  | cons y ys ih =>
    intro h
    rw [List.pairwise_cons] at h
    by_cases hxy : le x y = true
    · rw [insertLe_cons, if_pos hxy]
      rw [List.pairwise_cons]
      refine ⟨?_, List.pairwise_cons.mpr h⟩
      intro b hb
      rcases List.mem_cons.mp hb with rfl | hb
      · exact hxy
      · exact htrans x y b hxy (h.1 b hb)
    · rw [insertLe_cons, if_neg hxy]
      rw [List.pairwise_cons]
      refine ⟨?_, ih h.2⟩
      intro b hb
      rcases (mem_insertLe le x ys b).mp hb with rfl | hb
      · rcases htot b y with hby | hyb
        · exact absurd hby hxy
        · exact hyb
      · exact h.1 b hb

theorem pairwise_stableSort {α : Type} (le : α → α → Bool)
    (htot : ∀ a b, le a b = true ∨ le b a = true)
    (htrans : ∀ a b c, le a b = true → le b c = true → le a c = true) :
    ∀ l : List α, (stableSort le l).Pairwise (fun a b => le a b = true) := by
  intro l
  induction l with
  | nil => rw [stableSort_nil]; exact List.Pairwise.nil
  | cons x xs ih =>
    rw [stableSort_cons]
    exact pairwise_insertLe le htot htrans x _ ih

theorem keyLe_total (x y : Nat × Nat × Int) : keyLe x y = true ∨ keyLe y x = true := by
  simp only [keyLe, decide_eq_true_eq]
  omega

theorem keyLe_trans (x y z : Nat × Nat × Int) :
    keyLe x y = true → keyLe y z = true → keyLe x z = true := by
  simp only [keyLe, decide_eq_true_eq]
  omega

theorem complaintLe_total (c d : Complaint) :
    complaintLe c d = true ∨ complaintLe d c = true :=
  keyLe_total (sort_key c) (sort_key d)

theorem complaintLe_trans (c d e : Complaint) :
    complaintLe c d = true → complaintLe d e = true → complaintLe c e = true :=
  keyLe_trans (sort_key c) (sort_key d) (sort_key e)

theorem find?_append_left {α : Type} (p : α → Bool) (l l2 : List α) (a : α)
    (h : l.find? p = some a) : (l ++ l2).find? p = some a := by
  induction l with
  | nil => simp [List.find?] at h
  | cons x xs ih =>
    cases hp : p x with
    | true => simpa [List.find?, hp] using h
    | false =>
      simp only [List.find?, hp] at h
      show List.find? p (x :: (xs ++ l2)) = some a
      simp only [List.find?, hp]
      exact ih h

theorem find?_map_comm {α : Type} (f : α → α) (p : α → Bool)
    (hp : ∀ a, p (f a) = p a) : ∀ l : List α,
    (l.map f).find? p = (l.find? p).map f := by
  intro l
  induction l with
  | nil => simp
  | cons x xs ih =>
    cases hx : p x with
    | true => simp [List.find?, hp x, hx]
    | false => simp [List.find?, hp x, hx, ih]

theorem processAQ_error (f : AggFilters) (ex : List String) (e : String) :
    processAQ f ex (.error e) = [] := by
  unfold processAQ; split <;> rfl

theorem processAQ_okNil (f : AggFilters) (ex : List String) :
    processAQ f ex (.ok []) = [] := by
  unfold processAQ; split <;> rfl

theorem processMC_error (f : AggFilters) (ex : List String) (e : String) :
    processMC f ex (.error e) = [] := by
  unfold processMC; split <;> rfl

theorem processMC_okNil (f : AggFilters) (ex : List String) :
    processMC f ex (.ok []) = [] := by
  unfold processMC; split <;> rfl

theorem processPO_error (f : AggFilters) (ex : List String) (e : String) :
    processPO f ex (.error e) = [] := by
  unfold processPO; split <;> rfl

theorem processPO_okNil (f : AggFilters) (ex : List String) :
    processPO f ex (.ok []) = [] := by
  unfold processPO; split <;> rfl

theorem mem_processAQ (f : AggFilters) (ex : List String)
    (res : Except String (List AgentQueueRow)) (c : Complaint)
    (h : c ∈ processAQ f ex res) :
    ∃ rows, res = .ok rows ∧
      ∃ r ∈ rows, agent_queue_where f r = true ∧ c = normalizeAQ r := by
  unfold processAQ at h
  split at h
  · cases res with
    | error e => simp at h
    | ok rows =>
      refine ⟨rows, rfl, ?_⟩
      obtain ⟨r, hr, hc⟩ := List.mem_map.mp h
      rw [mem_stableSort] at hr
      obtain ⟨hrm, hrw⟩ := List.mem_filter.mp hr
      exact ⟨r, hrm, hrw, hc.symm⟩
  · simp at h

theorem mem_processMC (f : AggFilters) (ex : List String)
    (res : Except String (List MeterConcernRow)) (c : Complaint)
    (h : c ∈ processMC f ex res) :
    ∃ rows, res = .ok rows ∧
      ∃ r ∈ rows, meter_concern_where f r = true ∧ c = normalizeMC r := by
  unfold processMC at h
  split at h
  · cases res with
    | error e => simp at h
    | ok rows =>
      refine ⟨rows, rfl, ?_⟩
      obtain ⟨r, hr, hc⟩ := List.mem_map.mp h
      rw [mem_stableSort] at hr
      obtain ⟨hrm, hrw⟩ := List.mem_filter.mp hr
      exact ⟨r, hrm, hrw, hc.symm⟩
  · simp at h

theorem mem_processPO (f : AggFilters) (ex : List String)
    (res : Except String (List PowerOutageRow)) (c : Complaint)
    (h : c ∈ processPO f ex res) :
    ∃ rows, res = .ok rows ∧
      ∃ r ∈ rows, power_outage_where f r = true ∧ c = normalizePO r := by
  unfold processPO at h
  split at h
  · cases res with
    | error e => simp at h
    | ok rows =>
      refine ⟨rows, rfl, ?_⟩
      obtain ⟨r, hr, hc⟩ := List.mem_map.mp h
      rw [mem_stableSort] at hr
      obtain ⟨hrm, hrw⟩ := List.mem_filter.mp hr
      exact ⟨r, hrm, hrw, hc.symm⟩
  · simp at h

/-! ## Claim C1 -/

/-- C1: every call of the Unified Aggregator (`get_unified_complaints`), for
every filter combination, returns a list sorted ascending by the composite key
`(statusRank, priorityRank, -createdAtUnixSeconds)`, where the status ranks
map NEW, ASSIGNED, IN_PROGRESS, RESOLVED to 0-3 and every unknown status to 4
and the priority ranks map CRITICAL, HIGH, MEDIUM, LOW to 0-3 and every
unknown priority to 4; in particular, three complaints with statuses
{RESOLVED, NEW, NEW} and priorities {CRITICAL, LOW, HIGH} merge in the order
[NEW/HIGH, NEW/LOW, RESOLVED/CRITICAL]. -/
theorem C1_aggregator_sorted_by_composite_key :
    (∀ conn sf pf tf srch sh sd ed,
       List.Pairwise (fun a b => complaintLe a b = true)
         (get_unified_complaints conn sf pf tf srch sh sd ed)) ∧
    (statusOrder "NEW" = 0 ∧ statusOrder "ASSIGNED" = 1 ∧
     statusOrder "IN_PROGRESS" = 2 ∧ statusOrder "RESOLVED" = 3 ∧
     (∀ s, s ∉ ["NEW", "ASSIGNED", "IN_PROGRESS", "RESOLVED"] →
        statusOrder s = 4)) ∧
    (priorityOrder "CRITICAL" = 0 ∧ priorityOrder "HIGH" = 1 ∧
     priorityOrder "MEDIUM" = 2 ∧ priorityOrder "LOW" = 3 ∧
     (∀ s, s ∉ ["CRITICAL", "HIGH", "MEDIUM", "LOW"] → priorityOrder s = 4)) ∧
    (get_unified_complaints (some exampleMergeDB) none none none none false
        none none).map (fun c => (c.status, c.priority)) =
      [("NEW", "HIGH"), ("NEW", "LOW"), ("RESOLVED", "CRITICAL")] := by
  refine ⟨?_, ⟨rfl, rfl, rfl, rfl, ?_⟩, ⟨rfl, rfl, rfl, rfl, ?_⟩, by decide⟩
  · intro conn sf pf tf srch sh sd ed
    cases conn with
    | none => exact List.Pairwise.nil
    | some db =>
      obtain ⟨tq, aq, mc, po⟩ := db
      cases tq with
      | error e => exact List.Pairwise.nil
      | ok ex =>
        exact pairwise_stableSort complaintLe complaintLe_total complaintLe_trans _
  · intro s hs
    simp only [List.mem_cons, List.not_mem_nil, or_false, not_or] at hs
    obtain ⟨h1, h2, h3, h4⟩ := hs
    simp [statusOrder, h1, h2, h3, h4]
  · intro s hs
    simp only [List.mem_cons, List.not_mem_nil, or_false, not_or] at hs
    obtain ⟨h1, h2, h3, h4⟩ := hs
    simp [priorityOrder, h1, h2, h3, h4]

/-- Witness for C1: the unknown-rank hypotheses discharged at the concrete
status "DONE" and priority "URGENT". -/
theorem C1_aggregator_sorted_by_composite_key_witness :
    statusOrder "DONE" = 4 ∧ priorityOrder "URGENT" = 4 :=
  ⟨C1_aggregator_sorted_by_composite_key.2.1.2.2.2.2 "DONE" (by decide),
   C1_aggregator_sorted_by_composite_key.2.2.1.2.2.2.2 "URGENT" (by decide)⟩

/-! ## Claim C6 -/

/-- C6: the Unified Aggregator degrades gracefully — a failed connection
acquisition or a failure of the table-listing query (which escapes the
per-family loop) returns the empty list instead of raising, and a failure of
one family's query skips exactly that family, leaving the other families'
results identical to what an empty version of the failed family would give. -/
theorem C6_aggregator_degrades_gracefully :
    (∀ sf pf tf srch sh sd ed,
        get_unified_complaints none sf pf tf srch sh sd ed = []) ∧
    (∀ db sf pf tf srch sh sd ed e, db.tables_query = .error e →
        get_unified_complaints (some db) sf pf tf srch sh sd ed = []) ∧
    (∀ db sf pf tf srch sh sd ed e, db.agent_queue = .error e →
        get_unified_complaints (some db) sf pf tf srch sh sd ed =
          get_unified_complaints (some { db with agent_queue := .ok [] })
            sf pf tf srch sh sd ed) ∧
    (∀ db sf pf tf srch sh sd ed e, db.meter_concern = .error e →
        get_unified_complaints (some db) sf pf tf srch sh sd ed =
          get_unified_complaints (some { db with meter_concern := .ok [] })
            sf pf tf srch sh sd ed) ∧
    (∀ db sf pf tf srch sh sd ed e, db.power_outage_reports = .error e →
        get_unified_complaints (some db) sf pf tf srch sh sd ed =
          get_unified_complaints (some { db with power_outage_reports := .ok [] })
            sf pf tf srch sh sd ed) := by
  refine ⟨fun _ _ _ _ _ _ _ => rfl, ?_, ?_, ?_, ?_⟩
  · intro db sf pf tf srch sh sd ed e h
    obtain ⟨tq, aq, mc, po⟩ := db
    simp only at h
    subst h
    rfl
  · intro db sf pf tf srch sh sd ed e h
    obtain ⟨tq, aq, mc, po⟩ := db
    simp only at h
    subst h
    cases tq with
    | error e2 => rfl
    | ok ex =>
      show stableSort complaintLe _ = stableSort complaintLe _
      rw [processAQ_error, processAQ_okNil]
  · intro db sf pf tf srch sh sd ed e h
    obtain ⟨tq, aq, mc, po⟩ := db
    simp only at h
    subst h
    cases tq with
    | error e2 => rfl
    | ok ex =>
      show stableSort complaintLe _ = stableSort complaintLe _
      rw [processMC_error, processMC_okNil]
  · intro db sf pf tf srch sh sd ed e h
    obtain ⟨tq, aq, mc, po⟩ := db
    simp only at h
    subst h
    cases tq with
    | error e2 => rfl
    | ok ex =>
      show stableSort complaintLe _ = stableSort complaintLe _
      rw [processPO_error, processPO_okNil]

/-- Witness for C6: a store whose meter_concern query fails yields exactly the
power-outage rows of the example store, and an unreachable store yields the
empty list. -/
theorem C6_aggregator_degrades_gracefully_witness :
    get_unified_complaints
        (some { exampleMergeDB with meter_concern := .error "relation dropped" })
        none none none none false none none =
      get_unified_complaints
        (some { { exampleMergeDB with meter_concern := .error "relation dropped" }
                  with meter_concern := .ok [] })
        none none none none false none none ∧
    get_unified_complaints none none none none none false none none = [] :=
  ⟨C6_aggregator_degrades_gracefully.2.2.2.1
      { exampleMergeDB with meter_concern := .error "relation dropped" }
      none none none none false none none "relation dropped" rfl,
   C6_aggregator_degrades_gracefully.1 none none none none false none none⟩

/-! ## Claim C10 -/

/-- C10: the Unified Aggregator never returns an agent_queue record whose
`resumed` flag is true, for every filter combination including
`show_hidden = true` (the `resumed` exclusion is unconditional in
`agent_queue_where`); rows with NULL `hidden` or `resumed` are treated as
visible; every agent_queue complaint it does return comes from a
not-resumed row; and `resume_conversation` sets `resumed = TRUE` on the
targeted row whenever it exists and has a truthy `user_id`. -/
theorem C10_resumed_agent_requests_never_returned :
    (∀ f r, r.resumed = some true → agent_queue_where f r = false) ∧
    (resumedVisible none = true ∧ hiddenVisible none = true) ∧
    (∀ db sf pf tf srch sh sd ed c,
        c ∈ get_unified_complaints (some db) sf pf tf srch sh sd ed →
        c.table = "agent_queue" →
        ∃ rows, db.agent_queue = .ok rows ∧
          ∃ r ∈ rows,
            agent_queue_where
              { statusN := normFilter sf "All Status"
                priorityN := normFilter pf "All Priorities"
                typeN := normFilter tf "All Types"
                search_term := srch, show_hidden := sh
                start_datetime := sd, end_datetime := ed } r = true ∧
            r.resumed ≠ some true ∧ c = normalizeAQ r) ∧
    (∀ rows rid q r, rows.find? (fun q0 => q0.id == rid) = some q →
        pyTruthy q.user_id = true → r ∈ resume_conversation rows rid →
        r.id = rid → r.resumed = some true) := by
  have hexcl : ∀ f r, r.resumed = some true → agent_queue_where f r = false := by
    intro f r h
    simp [agent_queue_where, h, resumedVisible]
  refine ⟨hexcl, ⟨rfl, rfl⟩, ?_, ?_⟩
  · intro db sf pf tf srch sh sd ed c hmem htab
    obtain ⟨tq, aq, mc, po⟩ := db
    cases tq with
    | error e => simp [get_unified_complaints] at hmem
    | ok ex =>
      have hmem2 : c ∈
          processAQ
            { statusN := normFilter sf "All Status"
              priorityN := normFilter pf "All Priorities"
              typeN := normFilter tf "All Types"
              search_term := srch, show_hidden := sh
              start_datetime := sd, end_datetime := ed } ex aq ++
          (processMC
            { statusN := normFilter sf "All Status"
              priorityN := normFilter pf "All Priorities"
              typeN := normFilter tf "All Types"
              search_term := srch, show_hidden := sh
              start_datetime := sd, end_datetime := ed } ex mc ++
           processPO
            { statusN := normFilter sf "All Status"
              priorityN := normFilter pf "All Priorities"
              typeN := normFilter tf "All Types"
              search_term := srch, show_hidden := sh
              start_datetime := sd, end_datetime := ed } ex po) := by
        have := (mem_stableSort complaintLe _ c).mp hmem
        simpa using this
      rcases List.mem_append.mp hmem2 with hA | hBC
      · obtain ⟨rows, hrows, r, hr, hw, hc⟩ := mem_processAQ _ _ _ _ hA
        refine ⟨rows, hrows, r, hr, hw, ?_, hc⟩
        intro hres
        rw [hexcl _ r hres] at hw
        exact Bool.noConfusion hw
      · exfalso
        rcases List.mem_append.mp hBC with hB | hC
        · obtain ⟨rows, hrows, r, hr, hw, hc⟩ := mem_processMC _ _ _ _ hB
          rw [hc] at htab
          exact absurd (show ("meter_concern" : String) = "agent_queue" from htab)
            (by decide)
        · obtain ⟨rows, hrows, r, hr, hw, hc⟩ := mem_processPO _ _ _ _ hC
          rw [hc] at htab
          exact absurd
            (show ("power_outage_reports" : String) = "agent_queue" from htab)
            (by decide)
  · intro rows rid q r hfind htr hmem hid
    unfold resume_conversation at hmem
    rw [hfind] at hmem
    simp only [htr, if_true] at hmem
    obtain ⟨q0, hq0, hr⟩ := List.mem_map.mp hmem
    cases hq : (q0.id == rid) with
    | true => rw [← hr]; simp [hq]
    | false =>
      exfalso
      rw [← hr] at hid
      simp [hq] at hid
      exact absurd hid (by simpa using hq)

/-- Witness for C10: a resumed row is rejected by the agent-queue predicate
even with `show_hidden = true`, and resuming a concrete queue marks the row. -/
theorem C10_resumed_agent_requests_never_returned_witness :
    agent_queue_where
      { statusN := none, priorityN := none, typeN := none, search_term := none
        show_hidden := true, start_datetime := none, end_datetime := none }
      { aqBase with resumed := some true } = false ∧
    ∀ r ∈ resume_conversation [{ aqBase with id := 7, user_id := some "u1" }] 7,
      r.id = 7 → r.resumed = some true :=
  ⟨C10_resumed_agent_requests_never_returned.1 _ _ rfl,
   fun r hr hid =>
     C10_resumed_agent_requests_never_returned.2.2.2
       [{ aqBase with id := 7, user_id := some "u1" }] 7
       { aqBase with id := 7, user_id := some "u1" } r (by decide) (by decide)
       hr hid⟩

/-! ## Claim C7 -/

/-- C7: `update_status` rejects a status outside the four-value enum before
touching any row, with an invalid-status message distinct from the
record-not-found message; a missing record is a distinct no-op failure; and a
valid status on an existing record persists the value and produces the
status-changed outcome carrying both the prior and the new status. -/
theorem C7_update_status_contract :
    (∀ st table rid p, strUpper (strTrim (p.getD "")) = "" →
        update_status st table rid p = (st, .err "Status is required")) ∧
    (∀ st table rid p, strUpper (strTrim (p.getD "")) ≠ "" →
        valid_statuses.contains (strUpper (strTrim (p.getD ""))) = false →
        update_status st table rid p = (st, .err invalid_status_msg)) ∧
    invalid_status_msg ≠ "Record not found" ∧
    "Status is required" ≠ "Record not found" ∧
    (∀ st rid p,
        valid_statuses.contains (strUpper (strTrim (p.getD ""))) = true →
        st.power_outage_reports.find? (fun r => r.report_id == rid) = none →
        update_status st "power_outage_reports" rid p =
          (st, .err "Record not found")) ∧
    (∀ st rid p,
        valid_statuses.contains (strUpper (strTrim (p.getD ""))) = true →
        st.meter_concern.find? (fun r => r.id == rid) = none →
        update_status st "meter_concern" rid p = (st, .err "Record not found")) ∧
    (∀ st rid p,
        valid_statuses.contains (strUpper (strTrim (p.getD ""))) = true →
        st.agent_queue.find? (fun r => r.id == rid) = none →
        update_status st "agent_queue" rid p = (st, .err "Record not found")) ∧
    (∀ st rid p row,
        valid_statuses.contains (strUpper (strTrim (p.getD ""))) = true →
        st.power_outage_reports.find? (fun r => r.report_id == rid) = some row →
        update_status st "power_outage_reports" rid p =
          ({ st with power_outage_reports := st.power_outage_reports.map (fun r =>
              if r.report_id == rid then
                { r with status := some (strUpper (strTrim (p.getD ""))) }
              else r) },
           .ok row.status (strUpper (strTrim (p.getD ""))))) ∧
    (∀ st rid p row,
        valid_statuses.contains (strUpper (strTrim (p.getD ""))) = true →
        st.meter_concern.find? (fun r => r.id == rid) = some row →
        update_status st "meter_concern" rid p =
          ({ st with meter_concern := st.meter_concern.map (fun r =>
              if r.id == rid then
                { r with status := some (strUpper (strTrim (p.getD ""))) }
              else r) },
           .ok row.status (strUpper (strTrim (p.getD ""))))) ∧
    (∀ st rid p row,
        valid_statuses.contains (strUpper (strTrim (p.getD ""))) = true →
        st.agent_queue.find? (fun r => r.id == rid) = some row →
        update_status st "agent_queue" rid p =
          ({ st with agent_queue := st.agent_queue.map (fun r =>
              if r.id == rid then
                { r with status := some (strUpper (strTrim (p.getD ""))) }
              else r) },
           .ok row.status (strUpper (strTrim (p.getD ""))))) := by
  have hcv : ∀ (s : String), valid_statuses.contains s = true → ¬ s = "" := by
    intro s hs he
    rw [he] at hs
    exact absurd hs (by decide)
  refine ⟨?_, ?_, by decide, by decide, ?_, ?_, ?_, ?_, ?_, ?_⟩
  · intro st table rid p h
    unfold update_status
    rw [if_pos h]
  · intro st table rid p h1 h2
    unfold update_status
    rw [if_neg h1, if_pos (by simpa using h2)]
  · intro st rid p hv hf
    unfold update_status
    rw [if_neg (hcv _ hv), if_neg (by simpa using hv), if_pos rfl, hf]
  · intro st rid p hv hf
    unfold update_status
    rw [if_neg (hcv _ hv), if_neg (by simpa using hv),
      if_neg (by decide : ¬ ("meter_concern" : String) = "power_outage_reports"),
      if_pos rfl, hf]
  · intro st rid p hv hf
    unfold update_status
    rw [if_neg (hcv _ hv), if_neg (by simpa using hv),
      if_neg (by decide : ¬ ("agent_queue" : String) = "power_outage_reports"),
      if_neg (by decide : ¬ ("agent_queue" : String) = "meter_concern"),
      if_pos rfl, hf]
  · intro st rid p row hv hf
    unfold update_status
    rw [if_neg (hcv _ hv), if_neg (by simpa using hv), if_pos rfl, hf]
  · intro st rid p row hv hf
    unfold update_status
    rw [if_neg (hcv _ hv), if_neg (by simpa using hv),
      if_neg (by decide : ¬ ("meter_concern" : String) = "power_outage_reports"),
      if_pos rfl, hf]
  · intro st rid p row hv hf
    unfold update_status
    rw [if_neg (hcv _ hv), if_neg (by simpa using hv),
      if_neg (by decide : ¬ ("agent_queue" : String) = "power_outage_reports"),
      if_neg (by decide : ¬ ("agent_queue" : String) = "meter_concern"),
      if_pos rfl, hf]

/-- Witness for C7: the unrecognized status "DONE" is rejected on an empty
store without mutation, with the invalid-status message, which differs from
the record-not-found message. -/
theorem C7_update_status_contract_witness :
    update_status
        { power_outage_reports := [], meter_concern := [], agent_queue := [],
          converted := [] } "meter_concern" 1 (some "DONE") =
      ({ power_outage_reports := [], meter_concern := [], agent_queue := [],
         converted := [] },
       .err invalid_status_msg) ∧
    invalid_status_msg ≠ "Record not found" :=
  ⟨C7_update_status_contract.2.1 _ "meter_concern" 1 (some "DONE")
      (by decide) (by decide),
   C7_update_status_contract.2.2.1⟩

/-! ## Claim C8: helper lemmas -/

theorem map_fuse {α : Type} (f : α → α) (hff : ∀ a, f (f a) = f a) :
    ∀ l : List α, (l.map f).map f = l.map f := by
  intro l
  induction l with
  | nil => rfl
  | cons x xs ih => simp only [List.map_cons, hff, ih]

theorem hidden_mono_map {α : Type} (hid : α → Option Bool) (p : α → Bool)
    (f : α → α) (hp : ∀ a, p (f a) = p a)
    (hh : ∀ a, hid a = some true → hid (f a) = some true) (l : List α)
    (h : (l.find? p).map hid = some (some true)) :
    ((l.map f).find? p).map hid = some (some true) := by
  rw [find?_map_comm f p hp]
  cases hfl : l.find? p with
  | none => rw [hfl] at h; exact absurd h (by simp)
  | some a =>
    rw [hfl] at h
    have ha : hid a = some true := by simpa using h
    simpa using hh a ha

theorem hidden_mono_append {α : Type} (hid : α → Option Bool) (p : α → Bool)
    (l l2 : List α) (h : (l.find? p).map hid = some (some true)) :
    ((l ++ l2).find? p).map hid = some (some true) := by
  cases hfl : l.find? p with
  | none => rw [hfl] at h; exact absurd h (by simp)
  | some a => rw [find?_append_left p l l2 a hfl]; rw [hfl] at h; exact h

theorem hide_po_found (st : SysState) (rid : Nat) (row : PowerOutageRow)
    (hf : st.power_outage_reports.find? (fun r => r.report_id == rid) = some row) :
    hide_complaint st "power_outage_reports" rid =
      ({ st with power_outage_reports := st.power_outage_reports.map (fun r =>
          if r.report_id == rid then { r with hidden := some true } else r) },
       .ok "Complaint hidden successfully (can be shown again with Show Hidden checkbox)") := by
  unfold hide_complaint
  rw [if_neg (by decide), if_pos rfl, hf]

theorem hide_po_notfound (st : SysState) (rid : Nat)
    (hf : st.power_outage_reports.find? (fun r => r.report_id == rid) = none) :
    hide_complaint st "power_outage_reports" rid = (st, .err "Complaint not found") := by
  unfold hide_complaint
  rw [if_neg (by decide), if_pos rfl, hf]

theorem hide_mc_found (st : SysState) (rid : Nat) (row : MeterConcernRow)
    (hf : st.meter_concern.find? (fun r => r.id == rid) = some row) :
    hide_complaint st "meter_concern" rid =
      ({ st with meter_concern := st.meter_concern.map (fun r =>
          if r.id == rid then { r with hidden := some true } else r) },
       .ok "Complaint hidden successfully (can be shown again with Show Hidden checkbox)") := by
  unfold hide_complaint
  rw [if_neg (by decide),
    if_neg (by decide : ¬ ("meter_concern" : String) = "power_outage_reports"),
    if_pos rfl, hf]

theorem hide_mc_notfound (st : SysState) (rid : Nat)
    (hf : st.meter_concern.find? (fun r => r.id == rid) = none) :
    hide_complaint st "meter_concern" rid = (st, .err "Complaint not found") := by
  unfold hide_complaint
  rw [if_neg (by decide),
    if_neg (by decide : ¬ ("meter_concern" : String) = "power_outage_reports"),
    if_pos rfl, hf]

theorem hide_aq_found (st : SysState) (rid : Nat) (row : AgentQueueRow)
    (hf : st.agent_queue.find? (fun r => r.id == rid) = some row) :
    hide_complaint st "agent_queue" rid =
      ({ st with agent_queue := st.agent_queue.map (fun r =>
          if r.id == rid then { r with hidden := some true } else r) },
       .ok "Complaint hidden successfully (can be shown again with Show Hidden checkbox)") := by
  unfold hide_complaint
  rw [if_neg (by decide),
    if_neg (by decide : ¬ ("agent_queue" : String) = "power_outage_reports"),
    if_neg (by decide : ¬ ("agent_queue" : String) = "meter_concern"), hf]

theorem hide_aq_notfound (st : SysState) (rid : Nat)
    (hf : st.agent_queue.find? (fun r => r.id == rid) = none) :
    hide_complaint st "agent_queue" rid = (st, .err "Complaint not found") := by
  unfold hide_complaint
  rw [if_neg (by decide),
    if_neg (by decide : ¬ ("agent_queue" : String) = "power_outage_reports"),
    if_neg (by decide : ¬ ("agent_queue" : String) = "meter_concern"), hf]

theorem delete_po_eq (st : SysState) (rid : Nat) :
    (delete_complaint st "power_outage_reports" rid).1 =
      (hide_complaint st "power_outage_reports" rid).1 := by
  cases hf : st.power_outage_reports.find? (fun r => r.report_id == rid) with
  | none => simp +decide [delete_complaint, hide_complaint, complaint_tables, hf]
  | some row => simp +decide [delete_complaint, hide_complaint, complaint_tables, hf]

theorem delete_mc_eq (st : SysState) (rid : Nat) :
    (delete_complaint st "meter_concern" rid).1 =
      (hide_complaint st "meter_concern" rid).1 := by
  cases hf : st.meter_concern.find? (fun r => r.id == rid) with
  | none => simp +decide [delete_complaint, hide_complaint, complaint_tables, hf]
  | some row => simp +decide [delete_complaint, hide_complaint, complaint_tables, hf]

theorem delete_aq_eq (st : SysState) (rid : Nat) :
    (delete_complaint st "agent_queue" rid).1 =
      (hide_complaint st "agent_queue" rid).1 := by
  cases hf : st.agent_queue.find? (fun r => r.id == rid) with
  | none => simp +decide [delete_complaint, hide_complaint, complaint_tables, hf]
  | some row => simp +decide [delete_complaint, hide_complaint, complaint_tables, hf]

theorem delete_invalid_eq (st : SysState) (t : String) (rid : Nat)
    (h : complaint_tables.contains t = false) :
    (delete_complaint st t rid).1 = (hide_complaint st t rid).1 := by
  unfold delete_complaint hide_complaint
  rw [if_pos (by simpa using h), if_pos (by simpa using h)]

theorem hide_invalid (st : SysState) (t : String) (rid : Nat)
    (h : complaint_tables.contains t = false) :
    hide_complaint st t rid = (st, .err ("Table " ++ t ++ " does not exist")) := by
  unfold hide_complaint
  rw [if_pos (by simpa using h)]

theorem hidden_mono_po_map (l : List PowerOutageRow) (rid k : Nat)
    (g : PowerOutageRow → PowerOutageRow)
    (hgid : ∀ a, (g a).report_id = a.report_id)
    (hgh : ∀ a, a.hidden = some true → (g a).hidden = some true)
    (h : (l.find? (fun r => r.report_id == rid)).map (·.hidden) = some (some true)) :
    ((l.map (fun r => if r.report_id == k then g r else r)).find?
        (fun r => r.report_id == rid)).map (·.hidden) = some (some true) := by
  refine hidden_mono_map _ _ _ ?_ ?_ l h
  · intro a
    by_cases hx : (a.report_id == k) = true <;> simp [hx, hgid]
  · intro a ha
    by_cases hx : (a.report_id == k) = true <;> simp [hx, hgh a ha, ha]

theorem hidden_mono_mc_map (l : List MeterConcernRow) (rid k : Nat)
    (g : MeterConcernRow → MeterConcernRow)
    (hgid : ∀ a, (g a).id = a.id)
    (hgh : ∀ a, a.hidden = some true → (g a).hidden = some true)
    (h : (l.find? (fun r => r.id == rid)).map (·.hidden) = some (some true)) :
    ((l.map (fun r => if r.id == k then g r else r)).find?
        (fun r => r.id == rid)).map (·.hidden) = some (some true) := by
  refine hidden_mono_map _ _ _ ?_ ?_ l h
  · intro a
    by_cases hx : (a.id == k) = true <;> simp [hx, hgid]
  · intro a ha
    by_cases hx : (a.id == k) = true <;> simp [hx, hgh a ha, ha]

theorem hidden_mono_aq_map (l : List AgentQueueRow) (rid k : Nat)
    (g : AgentQueueRow → AgentQueueRow)
    (hgid : ∀ a, (g a).id = a.id)
    (hgh : ∀ a, a.hidden = some true → (g a).hidden = some true)
    (h : (l.find? (fun r => r.id == rid)).map (·.hidden) = some (some true)) :
    ((l.map (fun r => if r.id == k then g r else r)).find?
        (fun r => r.id == rid)).map (·.hidden) = some (some true) := by
  refine hidden_mono_map _ _ _ ?_ ?_ l h
  · intro a
    by_cases hx : (a.id == k) = true <;> simp [hx, hgid]
  · intro a ha
    by_cases hx : (a.id == k) = true <;> simp [hx, hgh a ha, ha]

set_option maxHeartbeats 2000000 in
/-- Across every operation of the public mutation contract, a record whose
`hidden` flag is true keeps it true: nothing ever un-hides. -/
theorem dashop_hidden_mono (op : DashOp) (st : SysState) (rid : Nat) :
    (((st.power_outage_reports.find? (fun r => r.report_id == rid)).map
        (·.hidden) = some (some true) →
      ((applyDashOp st op).power_outage_reports.find?
          (fun r => r.report_id == rid)).map (·.hidden) = some (some true))) ∧
    (((st.meter_concern.find? (fun r => r.id == rid)).map
        (·.hidden) = some (some true) →
      ((applyDashOp st op).meter_concern.find?
          (fun r => r.id == rid)).map (·.hidden) = some (some true))) ∧
    (((st.agent_queue.find? (fun r => r.id == rid)).map
        (·.hidden) = some (some true) →
      ((applyDashOp st op).agent_queue.find?
          (fun r => r.id == rid)).map (·.hidden) = some (some true))) := by
  cases op with
  | updStatus t p pay =>
    refine ⟨fun h => ?_, fun h => ?_, fun h => ?_⟩
    all_goals
      simp only [applyDashOp, update_status]
      repeat' split
    all_goals
      first
      | exact hidden_mono_po_map _ _ _ _ (fun a => rfl) (fun a ha => ha) h
      | exact hidden_mono_mc_map _ _ _ _ (fun a => rfl) (fun a ha => ha) h
      | exact hidden_mono_aq_map _ _ _ _ (fun a => rfl) (fun a ha => ha) h
      | exact h
  | hide t p =>
    refine ⟨fun h => ?_, fun h => ?_, fun h => ?_⟩
    all_goals
      simp only [applyDashOp, hide_complaint]
      repeat' split
    all_goals
      first
      | exact hidden_mono_po_map _ _ _ _ (fun a => rfl) (fun a ha => rfl) h
      | exact hidden_mono_mc_map _ _ _ _ (fun a => rfl) (fun a ha => rfl) h
      | exact hidden_mono_aq_map _ _ _ _ (fun a => rfl) (fun a ha => rfl) h
      | exact h
  | softDelete t p =>
    refine ⟨fun h => ?_, fun h => ?_, fun h => ?_⟩
    all_goals
      simp only [applyDashOp, delete_complaint]
      repeat' split
    all_goals
      first
      | exact hidden_mono_po_map _ _ _ _ (fun a => rfl) (fun a ha => rfl) h
      | exact hidden_mono_mc_map _ _ _ _ (fun a => rfl) (fun a ha => rfl) h
      | exact hidden_mono_aq_map _ _ _ _ (fun a => rfl) (fun a ha => rfl) h
      | exact h
  | assign t p cuid now rOk jcOk jiOk =>
    refine ⟨fun h => ?_, fun h => ?_, fun h => ?_⟩
    all_goals
      simp only [applyDashOp, assign_job_order]
      repeat' split
    all_goals
      first
      | exact hidden_mono_mc_map _ _ _ _ (fun a => rfl) (fun a ha => ha) h
      | exact hidden_mono_aq_map _ _ _ _ (fun a => rfl) (fun a ha => ha) h
      | exact h
  | resume p =>
    refine ⟨fun h => ?_, fun h => ?_, fun h => ?_⟩
    all_goals
      simp only [applyDashOp, resume_conversation]
      repeat' split
    all_goals
      first
      | exact hidden_mono_aq_map _ _ _ _ (fun a => rfl) (fun a ha => ha) h
      | exact h
  | webOutage a b c d e f g i j k l m n o q nid uid now nowStr r1 r2 r3 =>
    refine ⟨fun h => ?_, fun h => ?_, fun h => ?_⟩
    all_goals
      simp only [applyDashOp, submit_power_outage]
      repeat' split
    all_goals
      first
      | exact hidden_mono_po_map _ _ _ _ (fun a => rfl) (fun a ha => ha)
          (hidden_mono_append _ _ _ _ h)
      | exact hidden_mono_append _ _ _ _ h
      | exact h
  | chatOutage n a c uid nid njoid now today ok =>
    refine ⟨fun h => ?_, fun h => ?_, fun h => ?_⟩
    all_goals
      simp only [applyDashOp, action_submit_power_outage_form]
      repeat' split
    all_goals
      first
      | exact hidden_mono_append _ _ _ _ h
      | exact h
  | chatMeter a b c d e uid nid njoid now ok =>
    refine ⟨fun h => ?_, fun h => ?_, fun h => ?_⟩
    all_goals
      simp only [applyDashOp, action_submit_meter_concern]
      repeat' split
    all_goals
      first
      | exact hidden_mono_append _ _ _ _ h
      | exact h
  | chatAgent a b c uid nid now ok =>
    refine ⟨fun h => ?_, fun h => ?_, fun h => ?_⟩
    all_goals
      simp only [applyDashOp, action_submit_talk_to_agent_form]
      repeat' split
    all_goals
      first
      | exact hidden_mono_append _ _ _ _ h
      | exact h
  | smsIn p nid now =>
    refine ⟨fun h => ?_, fun h => ?_, fun h => ?_⟩
    all_goals
      simp only [applyDashOp, sms_webhook_insert]
      repeat' split
    all_goals
      first
      | exact hidden_mono_append _ _ _ _ h
      | exact h

/-! ## Claim C8 -/

/-- C8: hide is idempotent and one-way.  Hiding an existing record (already
hidden or not) sets `hidden = TRUE` and reports success; hiding a missing
record fails with a not-found error; hiding twice equals hiding once;
`delete_complaint` is the soft-delete alias with the identical state effect;
and no operation of the public mutation contract ever turns `hidden` back to
false. -/
theorem C8_hide_idempotent_one_way :
    (∀ st rid row,
        st.power_outage_reports.find? (fun r => r.report_id == rid) = some row →
        hide_complaint st "power_outage_reports" rid =
          ({ st with power_outage_reports := st.power_outage_reports.map (fun r =>
              if r.report_id == rid then { r with hidden := some true } else r) },
           .ok "Complaint hidden successfully (can be shown again with Show Hidden checkbox)")) ∧
    (∀ st rid row, st.meter_concern.find? (fun r => r.id == rid) = some row →
        hide_complaint st "meter_concern" rid =
          ({ st with meter_concern := st.meter_concern.map (fun r =>
              if r.id == rid then { r with hidden := some true } else r) },
           .ok "Complaint hidden successfully (can be shown again with Show Hidden checkbox)")) ∧
    (∀ st rid row, st.agent_queue.find? (fun r => r.id == rid) = some row →
        hide_complaint st "agent_queue" rid =
          ({ st with agent_queue := st.agent_queue.map (fun r =>
              if r.id == rid then { r with hidden := some true } else r) },
           .ok "Complaint hidden successfully (can be shown again with Show Hidden checkbox)")) ∧
    (∀ st rid,
        st.power_outage_reports.find? (fun r => r.report_id == rid) = none →
        hide_complaint st "power_outage_reports" rid =
          (st, .err "Complaint not found")) ∧
    (∀ st rid, st.meter_concern.find? (fun r => r.id == rid) = none →
        hide_complaint st "meter_concern" rid = (st, .err "Complaint not found")) ∧
    (∀ st rid, st.agent_queue.find? (fun r => r.id == rid) = none →
        hide_complaint st "agent_queue" rid = (st, .err "Complaint not found")) ∧
    (∀ st t rid, (hide_complaint (hide_complaint st t rid).1 t rid).1 =
        (hide_complaint st t rid).1) ∧
    (∀ st t rid, (delete_complaint st t rid).1 = (hide_complaint st t rid).1) ∧
    (∀ op st rid,
      (((st.power_outage_reports.find? (fun r => r.report_id == rid)).map
          (·.hidden) = some (some true) →
        ((applyDashOp st op).power_outage_reports.find?
            (fun r => r.report_id == rid)).map (·.hidden) = some (some true))) ∧
      (((st.meter_concern.find? (fun r => r.id == rid)).map
          (·.hidden) = some (some true) →
        ((applyDashOp st op).meter_concern.find?
            (fun r => r.id == rid)).map (·.hidden) = some (some true))) ∧
      (((st.agent_queue.find? (fun r => r.id == rid)).map
          (·.hidden) = some (some true) →
        ((applyDashOp st op).agent_queue.find?
            (fun r => r.id == rid)).map (·.hidden) = some (some true)))) := by
  refine ⟨hide_po_found, hide_mc_found, hide_aq_found, hide_po_notfound,
    hide_mc_notfound, hide_aq_notfound, ?_, ?_,
    fun op st rid => dashop_hidden_mono op st rid⟩
  · intro st t rid
    by_cases hct : complaint_tables.contains t = true
    · have hm : t ∈ complaint_tables := by simpa using hct
      simp only [complaint_tables, List.mem_cons, List.not_mem_nil, or_false] at hm
      rcases hm with rfl | rfl | rfl
      · cases hf : st.power_outage_reports.find? (fun r => r.report_id == rid) with
        | none =>
          rw [hide_po_notfound st rid hf]
          show (hide_complaint st "power_outage_reports" rid).1 = st
          rw [hide_po_notfound st rid hf]
        | some row =>
          rw [hide_po_found st rid row hf]
          have hfid : ∀ a : PowerOutageRow,
              (((fun r : PowerOutageRow => if r.report_id == rid then
                  { r with hidden := some true } else r) a).report_id == rid) =
                (a.report_id == rid) := by
            intro a
            by_cases hx : (a.report_id == rid) = true <;> simp [hx]
          have hf2 : (st.power_outage_reports.map (fun r =>
              if r.report_id == rid then { r with hidden := some true } else r)).find?
                (fun r => r.report_id == rid) =
              some (if row.report_id == rid then { row with hidden := some true } else row) := by
            rw [find?_map_comm _ _ hfid, hf]
            rfl
          rw [hide_po_found _ rid _ hf2]
          have := map_fuse (fun r : PowerOutageRow =>
              if r.report_id == rid then { r with hidden := some true } else r)
            (by intro a; by_cases hx : (a.report_id == rid) = true <;> simp [hx])
            st.power_outage_reports
          simp only [this]
      · cases hf : st.meter_concern.find? (fun r => r.id == rid) with
        | none =>
          rw [hide_mc_notfound st rid hf]
          show (hide_complaint st "meter_concern" rid).1 = st
          rw [hide_mc_notfound st rid hf]
        | some row =>
          rw [hide_mc_found st rid row hf]
          have hfid : ∀ a : MeterConcernRow,
              (((fun r : MeterConcernRow => if r.id == rid then
                  { r with hidden := some true } else r) a).id == rid) =
                (a.id == rid) := by
            intro a
            by_cases hx : (a.id == rid) = true <;> simp [hx]
          have hf2 : (st.meter_concern.map (fun r =>
              if r.id == rid then { r with hidden := some true } else r)).find?
                (fun r => r.id == rid) =
              some (if row.id == rid then { row with hidden := some true } else row) := by
            rw [find?_map_comm _ _ hfid, hf]
            rfl
          rw [hide_mc_found _ rid _ hf2]
          have := map_fuse (fun r : MeterConcernRow =>
              if r.id == rid then { r with hidden := some true } else r)
            (by intro a; by_cases hx : (a.id == rid) = true <;> simp [hx])
            st.meter_concern
          simp only [this]
      · cases hf : st.agent_queue.find? (fun r => r.id == rid) with
        | none =>
          rw [hide_aq_notfound st rid hf]
          show (hide_complaint st "agent_queue" rid).1 = st
          rw [hide_aq_notfound st rid hf]
        | some row =>
          rw [hide_aq_found st rid row hf]
          have hfid : ∀ a : AgentQueueRow,
              (((fun r : AgentQueueRow => if r.id == rid then
                  { r with hidden := some true } else r) a).id == rid) =
                (a.id == rid) := by
            intro a
            by_cases hx : (a.id == rid) = true <;> simp [hx]
          have hf2 : (st.agent_queue.map (fun r =>
              if r.id == rid then { r with hidden := some true } else r)).find?
                (fun r => r.id == rid) =
              some (if row.id == rid then { row with hidden := some true } else row) := by
            rw [find?_map_comm _ _ hfid, hf]
            rfl
          rw [hide_aq_found _ rid _ hf2]
          have := map_fuse (fun r : AgentQueueRow =>
              if r.id == rid then { r with hidden := some true } else r)
            (by intro a; by_cases hx : (a.id == rid) = true <;> simp [hx])
            st.agent_queue
          simp only [this]
    · have hcf : complaint_tables.contains t = false := by
        cases hcc : complaint_tables.contains t with
        | true => exact absurd hcc hct
        | false => rfl
      rw [hide_invalid st t rid hcf]
      show (hide_complaint st t rid).1 = st
      rw [hide_invalid st t rid hcf]
  · intro st t rid
    by_cases hct : complaint_tables.contains t = true
    · have hm : t ∈ complaint_tables := by simpa using hct
      simp only [complaint_tables, List.mem_cons, List.not_mem_nil, or_false] at hm
      rcases hm with rfl | rfl | rfl
      · exact delete_po_eq st rid
      · exact delete_mc_eq st rid
      · exact delete_aq_eq st rid
    · have hcf : complaint_tables.contains t = false := by
        cases hcc : complaint_tables.contains t with
        | true => exact absurd hcc hct
        | false => rfl
      exact delete_invalid_eq st t rid hcf

/-- Witness for C8: hiding an already-hidden concrete record succeeds again
(idempotent), and hiding a missing record on the same store fails with the
not-found error. -/
theorem C8_hide_idempotent_one_way_witness :
    hide_complaint
        { power_outage_reports := [{ poBase with report_id := 1, hidden := some true }],
          meter_concern := [], agent_queue := [], converted := [] }
        "power_outage_reports" 1 =
      ({ power_outage_reports :=
           [{ poBase with report_id := 1, hidden := some true }].map (fun r =>
             if r.report_id == 1 then { r with hidden := some true } else r),
         meter_concern := [], agent_queue := [], converted := [] },
       .ok "Complaint hidden successfully (can be shown again with Show Hidden checkbox)") ∧
    hide_complaint
        { power_outage_reports := [{ poBase with report_id := 1, hidden := some true }],
          meter_concern := [], agent_queue := [], converted := [] }
        "meter_concern" 5 =
      ({ power_outage_reports := [{ poBase with report_id := 1, hidden := some true }],
         meter_concern := [], agent_queue := [], converted := [] },
       .err "Complaint not found") :=
  ⟨C8_hide_idempotent_one_way.1 _ 1 { poBase with report_id := 1, hidden := some true }
      (by decide),
   C8_hide_idempotent_one_way.2.2.2.2.1 _ 5 (by decide)⟩

/-! ## Shared shape lemmas for `assign_job_order` -/

theorem assign_mc_success (st : SysState) (rid : Nat) (row : MeterConcernRow)
    (cuid now : String)
    (hf : st.meter_concern.find? (fun r => r.id == rid) = some row) :
    assign_job_order st "meter_concern" rid cuid now true true true =
      ({ st with
          converted := st.converted ++
            [assignConvertedData cuid now (pyOr row.name "Unknown")
              (pyOr row.contact_number "N/A") (pyOr row.address "N/A")
              (pyOr row.concern "Meter concern") "MEDIUM"
              (pyOr row.job_order_id "") (pyOr row.latitude "")
              (pyOr row.longitude "")]
          meter_concern := st.meter_concern.map (fun r =>
            if r.id == rid then
              { r with status := some "ASSIGNED", job_order_id := some cuid }
            else r) },
       .ok cuid (pyOr row.job_order_id "")) := by
  simp only [assign_job_order, hf]
  rfl

theorem assign_aq_success (st : SysState) (rid : Nat) (row : AgentQueueRow)
    (cuid now : String)
    (hf : st.agent_queue.find? (fun r => r.id == rid) = some row) :
    assign_job_order st "agent_queue" rid cuid now true true true =
      ({ st with
          converted := st.converted ++
            [assignConvertedData cuid now (pyOr row.full_name "Unknown")
              (pyOr row.contact_number "N/A") ""
              (pyOr row.concern "Service request") (pyOr row.priority "LOW")
              (pyOr row.job_order_id "") (pyOr row.latitude "")
              (pyOr row.longitude "")]
          agent_queue := st.agent_queue.map (fun r =>
            if r.id == rid then
              { r with status := some "ASSIGNED", job_order_id := some cuid }
            else r) },
       .ok cuid (pyOr row.job_order_id "")) := by
  simp only [assign_job_order, hf]
  rfl

theorem assign_po_fail (st : SysState) (rid : Nat) (cuid now : String)
    (jcOk jiOk : Bool) :
    assign_job_order st "power_outage_reports" rid cuid now true jcOk jiOk =
      (st, .err "local variable referenced before assignment") := by
  simp only [assign_job_order]
  rfl

theorem assign_unchanged_on_joblist_failure (st : SysState) (t : String)
    (rid : Nat) (cuid now : String) (rOk jcOk jiOk : Bool)
    (h : jcOk = false ∨ jiOk = false) :
    (assign_job_order st t rid cuid now rOk jcOk jiOk).1 = st := by
  simp only [assign_job_order]
  repeat' split
  all_goals first
    | rfl
    | (rcases h with rfl | rfl <;> simp_all)

theorem assign_unchanged_on_conn_failure (st : SysState) (t : String)
    (rid : Nat) (cuid now : String) (jcOk jiOk : Bool) :
    (assign_job_order st t rid cuid now false jcOk jiOk).1 = st := rfl

/-! ## Claim C2 -/

/-- C2 counterexample: starting from a complaint whose `job_order_id` is the
non-null "JO-20250101-1234", one call to `assign_job_order` ends with the
complaint's `job_order_id` overwritten by the newly generated "1234567890"
(the old identifier surviving only inside the new job order's notes), so
re-assignment is neither rejected nor a no-op on that field. -/
theorem C2_counterexample_job_order_id_overwritten :
    (stC2.meter_concern.find? (fun r => r.id == 1)).map (·.job_order_id) =
      some (some "JO-20250101-1234") ∧
    ((assign_job_order stC2 "meter_concern" 1 "1234567890"
        "01/01/25 10:00:00 AM" true true true).1.meter_concern.find?
          (fun r => r.id == 1)).map (·.job_order_id) =
      some (some "1234567890") ∧
    some "1234567890" ≠ some "JO-20250101-1234" ∧
    ((assign_job_order stC2 "meter_concern" 1 "1234567890"
        "01/01/25 10:00:00 AM" true true true).1.converted.map (·.notes)) =
      ["Original Job Order: JO-20250101-1234 | Priority: MEDIUM | defective meter"] := by
  decide

/-- C2 (amended): for the meter_concern and agent_queue families a repeat
`assign_job_order` is permitted and is not a no-op on `job_order_id` — it
carries the existing identifier into the new job order's notes and overwrites
the complaint's `job_order_id` with the newly generated identifier (setting
status to ASSIGNED); only for the power_outage_reports family is the field
never overwritten, because that code path always fails (unbound local
variable) before writing anything. -/
theorem C2_amended_reassignment_overwrites :
    (∀ st rid row cuid now,
        st.meter_concern.find? (fun r => r.id == rid) = some row →
        assign_job_order st "meter_concern" rid cuid now true true true =
          ({ st with
              converted := st.converted ++
                [assignConvertedData cuid now (pyOr row.name "Unknown")
                  (pyOr row.contact_number "N/A") (pyOr row.address "N/A")
                  (pyOr row.concern "Meter concern") "MEDIUM"
                  (pyOr row.job_order_id "") (pyOr row.latitude "")
                  (pyOr row.longitude "")]
              meter_concern := st.meter_concern.map (fun r =>
                if r.id == rid then
                  { r with status := some "ASSIGNED", job_order_id := some cuid }
                else r) },
           .ok cuid (pyOr row.job_order_id ""))) ∧
    (∀ st rid row cuid now,
        st.agent_queue.find? (fun r => r.id == rid) = some row →
        assign_job_order st "agent_queue" rid cuid now true true true =
          ({ st with
              converted := st.converted ++
                [assignConvertedData cuid now (pyOr row.full_name "Unknown")
                  (pyOr row.contact_number "N/A") ""
                  (pyOr row.concern "Service request") (pyOr row.priority "LOW")
                  (pyOr row.job_order_id "") (pyOr row.latitude "")
                  (pyOr row.longitude "")]
              agent_queue := st.agent_queue.map (fun r =>
                if r.id == rid then
                  { r with status := some "ASSIGNED", job_order_id := some cuid }
                else r) },
           .ok cuid (pyOr row.job_order_id ""))) ∧
    (∀ cuid now fn ph loc con pr ex la lo, ex ≠ "" →
        (assignConvertedData cuid now fn ph loc con pr ex la lo).notes =
          "Original Job Order: " ++ ex ++ " | Priority: " ++ pr ++ " | " ++ con) ∧
    (∀ st rid cuid now jcOk jiOk,
        assign_job_order st "power_outage_reports" rid cuid now true jcOk jiOk =
          (st, .err "local variable referenced before assignment")) := by
  refine ⟨?_, ?_, ?_, ?_⟩
  · intro st rid row cuid now hf
    simp only [assign_job_order, hf]
    rfl
  · intro st rid row cuid now hf
    simp only [assign_job_order, hf]
    rfl
  · intro cuid now fn ph loc con pr ex la lo hex
    show (if ex ≠ "" then
        "Original Job Order: " ++ ex ++ " | Priority: " ++ pr ++ " | " ++ con
      else "Priority: " ++ pr ++ " | " ++ con) = _
    rw [if_pos hex]
  · intro st rid cuid now jcOk jiOk
    simp only [assign_job_order]
    rfl

/-- Witness for C2 (amended): the concrete re-assignment of the already
assigned meter complaint returns the new identifier with the prior one as
`original_job_order_id`. -/
theorem C2_amended_reassignment_overwrites_witness :
    (assign_job_order stC2 "meter_concern" 1 "1234567890"
        "01/01/25 10:00:00 AM" true true true).2 =
      .ok "1234567890" "JO-20250101-1234" := by
  rw [C2_amended_reassignment_overwrites.1 stC2 1 mcRowOld "1234567890"
    "01/01/25 10:00:00 AM" (by decide)]
  decide

/-! ## Claim C4: helper lemmas -/

theorem find?_pred {α : Type} (p : α → Bool) (l : List α) (a : α)
    (h : l.find? p = some a) : p a = true := by
  induction l with
  | nil => simp [List.find?] at h
  | cons x xs ih =>
    cases hp : p x with
    | true =>
      have hx : x = a := by simpa [List.find?, hp] using h
      rw [← hx]
      exact hp
    | false =>
      simp only [List.find?, hp] at h
      exact ih h

theorem assign_mc_notfound (st : SysState) (rid : Nat) (cuid now : String)
    (jcOk jiOk : Bool)
    (hf : st.meter_concern.find? (fun r => r.id == rid) = none) :
    assign_job_order st "meter_concern" rid cuid now true jcOk jiOk =
      (st, .err "Record not found") := by
  simp only [assign_job_order, hf]
  rfl

theorem assign_aq_notfound (st : SysState) (rid : Nat) (cuid now : String)
    (jcOk jiOk : Bool)
    (hf : st.agent_queue.find? (fun r => r.id == rid) = none) :
    assign_job_order st "agent_queue" rid cuid now true jcOk jiOk =
      (st, .err "Record not found") := by
  simp only [assign_job_order, hf]
  rfl

theorem assign_invalid_table (st : SysState) (t : String) (rid : Nat)
    (cuid now : String) (jcOk jiOk : Bool)
    (h1 : ¬ t = "power_outage_reports") (h2 : ¬ t = "meter_concern")
    (h3 : ¬ t = "agent_queue") :
    assign_job_order st t rid cuid now true jcOk jiOk =
      (st, .err "Invalid table name") := by
  simp only [assign_job_order]
  rw [if_neg (by simp), if_neg h1, if_neg h2, if_neg h3]

theorem submit_invalid
    (st : SysState) (a b c d e f g i j2 k l m n o q : Option String)
    (nid : Nat) (uid : String) (now : Int) (nowStr : String) (r1 r2 r3 : Bool)
    (h : ¬ (strTrim (a.getD "") ≠ "" ∧ strTrim (b.getD "") ≠ "" ∧
        strTrim (e.getD "") ≠ "" ∧ strTrim (n.getD "") ≠ "" ∧
        pyTruthy f = true ∧ pyTruthy g = true)) :
    submit_power_outage st a b c d e f g i j2 k l m n o q nid uid now nowStr
        r1 r2 r3 = (st, .err "Missing required fields") := by
  simp only [submit_power_outage]
  rw [if_pos h]

theorem submit_connfail
    (st : SysState) (a b c d e f g i j2 k l m n o q : Option String)
    (nid : Nat) (uid : String) (now : Int) (nowStr : String) (r2 r3 : Bool)
    (h : strTrim (a.getD "") ≠ "" ∧ strTrim (b.getD "") ≠ "" ∧
        strTrim (e.getD "") ≠ "" ∧ strTrim (n.getD "") ≠ "" ∧
        pyTruthy f = true ∧ pyTruthy g = true) :
    submit_power_outage st a b c d e f g i j2 k l m n o q nid uid now nowStr
        false r2 r3 = (st, .err "Database connection failed") := by
  simp only [submit_power_outage]
  rw [if_neg (not_not_intro h)]
  rfl

theorem submit_insert_nojob_lowprio
    (st : SysState) (a b c d e f g i j2 k l m n o q : Option String)
    (nid : Nat) (uid : String) (now : Int) (nowStr : String) (r2 r3 : Bool)
    (h : strTrim (a.getD "") ≠ "" ∧ strTrim (b.getD "") ≠ "" ∧
        strTrim (e.getD "") ≠ "" ∧ strTrim (n.getD "") ≠ "" ∧
        pyTruthy f = true ∧ pyTruthy g = true)
    (hp : ¬ (submit_power_outage_priority (j2.getD "power_outage")
          (strTrim (n.getD "")) = "CRITICAL" ∨
        submit_power_outage_priority (j2.getD "power_outage")
          (strTrim (n.getD "")) = "HIGH")) :
    submit_power_outage st a b c d e f g i j2 k l m n o q nid uid now nowStr
        true r2 r3 =
      ({ st with power_outage_reports := st.power_outage_reports ++
          [webInsertRow a b c d e f g i j2 k l m n o q nid now] },
       .ok nid "Will be assigned by operator"
         (submit_power_outage_priority (j2.getD "power_outage")
           (strTrim (n.getD "")))) := by
  simp only [submit_power_outage, webInsertRow]
  rw [if_neg (not_not_intro h), if_neg (by simp), if_neg hp]

theorem submit_insert_nojob_joblistfail
    (st : SysState) (a b c d e f g i j2 k l m n o q : Option String)
    (nid : Nat) (uid : String) (now : Int) (nowStr : String) (r2 r3 : Bool)
    (h : strTrim (a.getD "") ≠ "" ∧ strTrim (b.getD "") ≠ "" ∧
        strTrim (e.getD "") ≠ "" ∧ strTrim (n.getD "") ≠ "" ∧
        pyTruthy f = true ∧ pyTruthy g = true)
    (hp : submit_power_outage_priority (j2.getD "power_outage")
          (strTrim (n.getD "")) = "CRITICAL" ∨
        submit_power_outage_priority (j2.getD "power_outage")
          (strTrim (n.getD "")) = "HIGH")
    (hj : ¬ (r2 = true ∧ r3 = true)) :
    submit_power_outage st a b c d e f g i j2 k l m n o q nid uid now nowStr
        true r2 r3 =
      ({ st with power_outage_reports := st.power_outage_reports ++
          [webInsertRow a b c d e f g i j2 k l m n o q nid now] },
       .ok nid "Will be assigned by operator"
         (submit_power_outage_priority (j2.getD "power_outage")
           (strTrim (n.getD "")))) := by
  simp only [submit_power_outage, webInsertRow]
  rw [if_neg (not_not_intro h), if_neg (by simp), if_pos hp, if_neg hj]

theorem submit_insert_with_job
    (st : SysState) (a b c d e f g i j2 k l m n o q : Option String)
    (nid : Nat) (uid : String) (now : Int) (nowStr : String)
    (h : strTrim (a.getD "") ≠ "" ∧ strTrim (b.getD "") ≠ "" ∧
        strTrim (e.getD "") ≠ "" ∧ strTrim (n.getD "") ≠ "" ∧
        pyTruthy f = true ∧ pyTruthy g = true)
    (hp : submit_power_outage_priority (j2.getD "power_outage")
          (strTrim (n.getD "")) = "CRITICAL" ∨
        submit_power_outage_priority (j2.getD "power_outage")
          (strTrim (n.getD "")) = "HIGH") :
    submit_power_outage st a b c d e f g i j2 k l m n o q nid uid now nowStr
        true true true =
      ({ st with
          converted := st.converted ++
            [webConvertedData uid nowStr (strTrim (a.getD ""))
              (strTrim (b.getD "")) (strTrim (e.getD ""))
              (j2.getD "power_outage") (k.getD "unknown")
              (strTrim (n.getD "")) (strTrim (o.getD ""))
              (submit_power_outage_priority (j2.getD "power_outage")
                (strTrim (n.getD ""))) (optStr f) (optStr g)]
          power_outage_reports :=
            (st.power_outage_reports ++
              [webInsertRow a b c d e f g i j2 k l m n o q nid now]).map (fun r =>
                if r.report_id == nid then { r with job_order_id := some uid }
                else r) },
       .ok nid uid
         (submit_power_outage_priority (j2.getD "power_outage")
           (strTrim (n.getD "")))) := by
  simp only [submit_power_outage, webInsertRow]
  rw [if_neg (not_not_intro h), if_neg (by simp), if_pos hp,
    if_pos (by simp)]

/-! ## Claim C4 -/

/-- C4: in `assign_job_order` the job order is committed to the separate
joblist store first and the complaint row is mutated only afterwards: if the
joblist connection or the joblist INSERT fails (or the rasa connection fails,
or the family is power_outage_reports, whose branch always aborts on an
unbound local), the complaint store is fully unchanged; on success the new job
order is already in the joblist store carrying the generated id that the
complaint then points at; and both `assign_job_order` and the automatic
job-order block of `submit_power_outage` preserve the invariant that every
`job_order_id` they set references an existing `converted` row. -/
theorem C4_write_job_order_then_link :
    (∀ st t rid cuid now rOk jcOk jiOk, jcOk = false ∨ jiOk = false →
        (assign_job_order st t rid cuid now rOk jcOk jiOk).1 = st) ∧
    (∀ st t rid cuid now jcOk jiOk,
        (assign_job_order st t rid cuid now false jcOk jiOk).1 = st) ∧
    (∀ st rid cuid now rOk jcOk jiOk,
        (assign_job_order st "power_outage_reports" rid cuid now
          rOk jcOk jiOk).1 = st) ∧
    (∀ st rid row cuid now,
        st.meter_concern.find? (fun r => r.id == rid) = some row →
        ∃ cd, (assign_job_order st "meter_concern" rid cuid now
            true true true).1.converted = st.converted ++ [cd] ∧
          cd.unique_id = cuid ∧
          ((assign_job_order st "meter_concern" rid cuid now
              true true true).1.meter_concern.find? (fun r => r.id == rid)).map
            (·.job_order_id) = some (some cuid)) ∧
    (∀ st rid row cuid now,
        st.agent_queue.find? (fun r => r.id == rid) = some row →
        ∃ cd, (assign_job_order st "agent_queue" rid cuid now
            true true true).1.converted = st.converted ++ [cd] ∧
          cd.unique_id = cuid ∧
          ((assign_job_order st "agent_queue" rid cuid now
              true true true).1.agent_queue.find? (fun r => r.id == rid)).map
            (·.job_order_id) = some (some cuid)) ∧
    (∀ st rid cuid now,
        (∀ r ∈ st.meter_concern, ∀ j, r.job_order_id = some j →
            ∃ cd ∈ st.converted, cd.unique_id = j) →
        ∀ r ∈ (assign_job_order st "meter_concern" rid cuid now
            true true true).1.meter_concern, ∀ j, r.job_order_id = some j →
          ∃ cd ∈ (assign_job_order st "meter_concern" rid cuid now
              true true true).1.converted, cd.unique_id = j) ∧
    (∀ st rid cuid now,
        (∀ r ∈ st.agent_queue, ∀ j, r.job_order_id = some j →
            ∃ cd ∈ st.converted, cd.unique_id = j) →
        ∀ r ∈ (assign_job_order st "agent_queue" rid cuid now
            true true true).1.agent_queue, ∀ j, r.job_order_id = some j →
          ∃ cd ∈ (assign_job_order st "agent_queue" rid cuid now
              true true true).1.converted, cd.unique_id = j) ∧
    (∀ st a b c d e f g i j2 k l m n o q nid uid now nowStr,
        (∀ r ∈ st.power_outage_reports, ∀ j, r.job_order_id = some j →
            ∃ cd ∈ st.converted, cd.unique_id = j) →
        ∀ r ∈ (submit_power_outage st a b c d e f g i j2 k l m n o q
            nid uid now nowStr true true true).1.power_outage_reports,
          ∀ j, r.job_order_id = some j →
          ∃ cd ∈ (submit_power_outage st a b c d e f g i j2 k l m n o q
              nid uid now nowStr true true true).1.converted,
            cd.unique_id = j) := by
  refine ⟨assign_unchanged_on_joblist_failure, assign_unchanged_on_conn_failure,
    ?_, ?_, ?_, ?_, ?_, ?_⟩
  · intro st rid cuid now rOk jcOk jiOk
    cases rOk with
    | false => exact assign_unchanged_on_conn_failure st _ rid cuid now jcOk jiOk
    | true => rw [assign_po_fail st rid cuid now jcOk jiOk]
  · intro st rid row cuid now hf
    rw [assign_mc_success st rid row cuid now hf]
    refine ⟨_, rfl, rfl, ?_⟩
    have hfid : ∀ a : MeterConcernRow,
        (((fun r : MeterConcernRow => if r.id == rid then
            { r with status := some "ASSIGNED", job_order_id := some cuid }
          else r) a).id == rid) = (a.id == rid) := by
      intro a
      by_cases hx : (a.id == rid) = true <;> simp [hx]
    show ((st.meter_concern.map _).find? _).map _ = _
    rw [find?_map_comm _ _ hfid, hf]
    have hrow : (row.id == rid) = true :=
      find?_pred (fun r => r.id == rid) st.meter_concern row hf
    have hre : row.id = rid := by simpa using hrow
    simp [hre]
  · intro st rid row cuid now hf
    rw [assign_aq_success st rid row cuid now hf]
    refine ⟨_, rfl, rfl, ?_⟩
    have hfid : ∀ a : AgentQueueRow,
        (((fun r : AgentQueueRow => if r.id == rid then
            { r with status := some "ASSIGNED", job_order_id := some cuid }
          else r) a).id == rid) = (a.id == rid) := by
      intro a
      by_cases hx : (a.id == rid) = true <;> simp [hx]
    show ((st.agent_queue.map _).find? _).map _ = _
    rw [find?_map_comm _ _ hfid, hf]
    have hrow : (row.id == rid) = true :=
      find?_pred (fun r => r.id == rid) st.agent_queue row hf
    have hre : row.id = rid := by simpa using hrow
    simp [hre]
  · intro st rid cuid now hmc
    cases hf : st.meter_concern.find? (fun r => r.id == rid) with
    | none =>
      rw [assign_mc_notfound st rid cuid now true true hf]
      exact hmc
    | some row =>
      rw [assign_mc_success st rid row cuid now hf]
      intro r hr j hj
      obtain ⟨q0, hq0, hfq⟩ := List.mem_map.mp hr
      by_cases hqid : (q0.id == rid) = true
      · rw [← hfq] at hj
        simp only [hqid, if_true] at hj
        refine ⟨_, List.mem_append.mpr (Or.inr (List.mem_singleton.mpr rfl)), ?_⟩
        have hju : j = cuid := by simpa using hj.symm
        rw [hju]
        rfl
      · rw [← hfq] at hj
        obtain ⟨cd, hcd, hu⟩ := hmc q0 hq0 j (by simpa [hqid] using hj)
        exact ⟨cd, List.mem_append.mpr (Or.inl hcd), hu⟩
  · intro st rid cuid now haq
    cases hf : st.agent_queue.find? (fun r => r.id == rid) with
    | none =>
      rw [assign_aq_notfound st rid cuid now true true hf]
      exact haq
    | some row =>
      rw [assign_aq_success st rid row cuid now hf]
      intro r hr j hj
      obtain ⟨q0, hq0, hfq⟩ := List.mem_map.mp hr
      by_cases hqid : (q0.id == rid) = true
      · rw [← hfq] at hj
        simp only [hqid, if_true] at hj
        refine ⟨_, List.mem_append.mpr (Or.inr (List.mem_singleton.mpr rfl)), ?_⟩
        have hju : j = cuid := by simpa using hj.symm
        rw [hju]
        rfl
      · rw [← hfq] at hj
        obtain ⟨cd, hcd, hu⟩ := haq q0 hq0 j (by simpa [hqid] using hj)
        exact ⟨cd, List.mem_append.mpr (Or.inl hcd), hu⟩
  · intro st a b c d e f g i j2 k l m n o q nid uid now nowStr hpo
    by_cases hv : (strTrim (a.getD "") ≠ "" ∧ strTrim (b.getD "") ≠ "" ∧
        strTrim (e.getD "") ≠ "" ∧ strTrim (n.getD "") ≠ "" ∧
        pyTruthy f = true ∧ pyTruthy g = true)
    · by_cases hp : (submit_power_outage_priority (j2.getD "power_outage")
            (strTrim (n.getD "")) = "CRITICAL" ∨
          submit_power_outage_priority (j2.getD "power_outage")
            (strTrim (n.getD "")) = "HIGH")
      · rw [submit_insert_with_job st a b c d e f g i j2 k l m n o q
          nid uid now nowStr hv hp]
        intro r hr j hj
        obtain ⟨q0, hq0, hfq⟩ := List.mem_map.mp hr
        by_cases hqid : (q0.report_id == nid) = true
        · rw [← hfq] at hj
          simp only [hqid, if_true] at hj
          refine ⟨_, List.mem_append.mpr (Or.inr (List.mem_singleton.mpr rfl)), ?_⟩
          have hju : j = uid := by simpa using hj.symm
          rw [hju]
          rfl
        · rw [← hfq] at hj
          have hj2 : q0.job_order_id = some j := by simpa [hqid] using hj
          rcases List.mem_append.mp hq0 with hold | hnew
          · obtain ⟨cd, hcd, hu⟩ := hpo q0 hold j hj2
            exact ⟨cd, List.mem_append.mpr (Or.inl hcd), hu⟩
          · rw [List.mem_singleton.mp hnew] at hj2
            simp [webInsertRow] at hj2
      · rw [submit_insert_nojob_lowprio st a b c d e f g i j2 k l m n o q
          nid uid now nowStr true true hv hp]
        intro r hr j hj
        rcases List.mem_append.mp hr with hold | hnew
        · exact hpo r hold j hj
        · rw [List.mem_singleton.mp hnew] at hj
          simp [webInsertRow] at hj
    · rw [submit_invalid st a b c d e f g i j2 k l m n o q
        nid uid now nowStr true true true hv]
      exact hpo

/-- Witness for C4: a failed joblist INSERT leaves the concrete store intact,
and a successful assignment on the same store yields a job order whose id the
complaint points at. -/
theorem C4_write_job_order_then_link_witness :
    (assign_job_order stC2 "meter_concern" 1 "999" "now" true true false).1 =
      stC2 ∧
    ∃ cd, (assign_job_order stC2 "meter_concern" 1 "999" "now"
        true true true).1.converted = stC2.converted ++ [cd] ∧
      cd.unique_id = "999" ∧
      ((assign_job_order stC2 "meter_concern" 1 "999" "now"
          true true true).1.meter_concern.find? (fun r => r.id == 1)).map
        (·.job_order_id) = some (some "999") :=
  ⟨C4_write_job_order_then_link.1 stC2 "meter_concern" 1 "999" "now"
      true true false (Or.inr rfl),
   C4_write_job_order_then_link.2.2.2.1 stC2 1 mcRowOld "999" "now" (by decide)⟩

/-! ## Claim C3 -/

/-- C3 counterexample: with an unresolved report for
"Brgy. Bacan, Cabatuan, Iloilo" created the same calendar day, a second
submission through the public web-form Intake Adapter (`submit_power_outage`)
still inserts a second `power_outage_reports` row and answers with a fresh job
identifier instead of the first submission's "JO-20250101-0007". -/
theorem C3_counterexample_web_adapter_no_dedup :
    stC3.power_outage_reports.length = 1 ∧
    sameDayAddr (some "Brgy. Bacan, Cabatuan, Iloilo") (dayOf 2000)
      poRowToday = true ∧
    notResolvedOrFinished poRowToday.status = true ∧
    (submit_power_outage stC3 (some "Juan Cruz") (some "09171234567")
        none none (some "Brgy. Bacan, Cabatuan, Iloilo") (some "10.9")
        (some "122.5") none none none none none
        (some "no power since morning") none none
        2 "AB12CD34EF56" 2000 "01/01/70 10:00:00 AM"
        true true true).1.power_outage_reports.length = 2 ∧
    (submit_power_outage stC3 (some "Juan Cruz") (some "09171234567")
        none none (some "Brgy. Bacan, Cabatuan, Iloilo") (some "10.9")
        (some "122.5") none none none none none
        (some "no power since morning") none none
        2 "AB12CD34EF56" 2000 "01/01/70 10:00:00 AM"
        true true true).2 = .ok 2 "AB12CD34EF56" "HIGH" ∧
    "AB12CD34EF56" ≠ "JO-20250101-0007" := by
  decide

/-- C3 (amended): the dedup guarantee holds only for the chatbot outage
adapter — when the most recent same-address same-calendar-day report has a
status outside {RESOLVED, FINISHED}, it inserts nothing and replies with that
report's job identifier; the public web-form adapter performs no duplicate
lookup and appends exactly one new row on every valid submission. -/
theorem C3_amended_dedup_only_in_chatbot_adapter :
    (∀ rows fn addr cn uidS nid njoid now today ex,
        (stableSort (fun a b => tsDescLe a.timestamp b.timestamp)
            (rows.filter (sameDayAddr addr today))).head? = some ex →
        notResolvedOrFinished ex.status = true →
        action_submit_power_outage_form rows fn addr cn uidS nid njoid
            now today true =
          { rows := rows, job_order_id := ex.job_order_id, inserted := false }) ∧
    (∀ st a b c d e f g i j2 k l m n o q nid uidS now nowStr r2 r3,
        (strTrim (a.getD "") ≠ "" ∧ strTrim (b.getD "") ≠ "" ∧
          strTrim (e.getD "") ≠ "" ∧ strTrim (n.getD "") ≠ "" ∧
          pyTruthy f = true ∧ pyTruthy g = true) →
        (submit_power_outage st a b c d e f g i j2 k l m n o q nid uidS now
            nowStr true r2 r3).1.power_outage_reports.length =
          st.power_outage_reports.length + 1) := by
  constructor
  · intro rows fn addr cn uidS nid njoid now today ex hh hnr
    simp only [action_submit_power_outage_form, hh]
    rw [if_neg (by simp), if_pos hnr]
  · intro st a b c d e f g i j2 k l m n o q nid uidS now nowStr r2 r3 hv
    by_cases hp : (submit_power_outage_priority (j2.getD "power_outage")
          (strTrim (n.getD "")) = "CRITICAL" ∨
        submit_power_outage_priority (j2.getD "power_outage")
          (strTrim (n.getD "")) = "HIGH")
    · by_cases hj : (r2 = true ∧ r3 = true)
      · obtain ⟨hr2, hr3⟩ := hj
        subst hr2
        subst hr3
        rw [submit_insert_with_job st a b c d e f g i j2 k l m n o q
          nid uidS now nowStr hv hp]
        simp
      · rw [submit_insert_nojob_joblistfail st a b c d e f g i j2 k l m n o q
          nid uidS now nowStr r2 r3 hv hp hj]
        simp
    · rw [submit_insert_nojob_lowprio st a b c d e f g i j2 k l m n o q
        nid uidS now nowStr r2 r3 hv hp]
      simp

/-- Witness for C3 (amended): on the concrete store the chatbot adapter
returns the first report's job identifier without inserting, while the web
adapter grows the table to two rows. -/
theorem C3_amended_dedup_only_in_chatbot_adapter_witness :
    action_submit_power_outage_form stC3.power_outage_reports
        (some "Juan Cruz") (some "Brgy. Bacan, Cabatuan, Iloilo")
        (some "09171234567") "u1" 2 "JO-20250101-9999" 2000 0 true =
      { rows := stC3.power_outage_reports,
        job_order_id := some "JO-20250101-0007", inserted := false } ∧
    (submit_power_outage stC3 (some "Juan Cruz") (some "09171234567")
        none none (some "Brgy. Bacan, Cabatuan, Iloilo") (some "10.9")
        (some "122.5") none none none none none
        (some "no power since morning") none none
        2 "AB12CD34EF56" 2000 "01/01/70 10:00:00 AM"
        true true true).1.power_outage_reports.length =
      stC3.power_outage_reports.length + 1 :=
  ⟨C3_amended_dedup_only_in_chatbot_adapter.1 stC3.power_outage_reports
      (some "Juan Cruz") (some "Brgy. Bacan, Cabatuan, Iloilo")
      (some "09171234567") "u1" 2 "JO-20250101-9999" 2000 0 poRowToday
      (by decide) (by decide),
   C3_amended_dedup_only_in_chatbot_adapter.2 stC3 (some "Juan Cruz")
      (some "09171234567") none none (some "Brgy. Bacan, Cabatuan, Iloilo")
      (some "10.9") (some "122.5") none none none none none
      (some "no power since morning") none none
      2 "AB12CD34EF56" 2000 "01/01/70 10:00:00 AM" true true (by decide)⟩

/-! ## Claim C5 -/

/-- C5 counterexample: on the classifier that actually receives the structured
incident type (the `submit_power_outage` priority logic built on the effective
module-level `get_priority_from_concern`), billing text yields HIGH, not
MEDIUM, and neutral text yields HIGH, not LOW — the MEDIUM and LOW tiers the
claim describes are unreachable on this path. -/
theorem C5_counterexample_no_medium_low_tiers :
    submit_power_outage_priority "power_outage" "my bill seems too high" =
      "HIGH" ∧
    ("HIGH" : String) ≠ "MEDIUM" ∧
    submit_power_outage_priority "power_outage" "routine inquiry" = "HIGH" ∧
    ("HIGH" : String) ≠ "LOW" := by
  decide

/-- C5 (amended): the structured incident types {fallen_wire, fire_hazard,
transformer_issue} do override to CRITICAL unconditionally, but the classifier
behind them knows only two tiers — CRITICAL on a critical keyword,
HIGH otherwise; the four-tier most-severe-first cascade (critical / high /
medium on billing-payment terms / low default, lower-case results) exists only
in the agent-queue adapter's classifier, which takes no structured incident
type at all. -/
theorem C5_amended_two_classifiers :
    (∀ d t, t ∈ critical_types → submit_power_outage_priority t d = "CRITICAL") ∧
    (∀ d t, submit_power_outage_priority t d = "CRITICAL" ∨
        submit_power_outage_priority t d = "HIGH") ∧
    (∀ c, critical_keywords.any
          (fun w => containsSub (strLower (c.getD "")) w) = true →
        get_priority_from_concern c = "CRITICAL") ∧
    (∀ c, critical_keywords.any
          (fun w => containsSub (strLower (c.getD "")) w) = false →
        get_priority_from_concern c = "HIGH") ∧
    (∀ c, ["emergency", "fire", "fallen", "accident", "hazard"].any
          (fun w => containsSub (strLower (c.getD "")) w) = true →
        ActionSubmitTalkToAgentForm.get_priority_from_concern c = "critical") ∧
    (∀ c, ["emergency", "fire", "fallen", "accident", "hazard"].any
          (fun w => containsSub (strLower (c.getD "")) w) = false →
        ["no electricity", "power outage", "blackout"].any
          (fun w => containsSub (strLower (c.getD "")) w) = true →
        ActionSubmitTalkToAgentForm.get_priority_from_concern c = "high") ∧
    (∀ c, ["emergency", "fire", "fallen", "accident", "hazard"].any
          (fun w => containsSub (strLower (c.getD "")) w) = false →
        ["no electricity", "power outage", "blackout"].any
          (fun w => containsSub (strLower (c.getD "")) w) = false →
        ["billing", "bill", "payment", "follow-up", "follow up"].any
          (fun w => containsSub (strLower (c.getD "")) w) = true →
        ActionSubmitTalkToAgentForm.get_priority_from_concern c = "medium") ∧
    (∀ c, ["emergency", "fire", "fallen", "accident", "hazard"].any
          (fun w => containsSub (strLower (c.getD "")) w) = false →
        ["no electricity", "power outage", "blackout"].any
          (fun w => containsSub (strLower (c.getD "")) w) = false →
        ["billing", "bill", "payment", "follow-up", "follow up"].any
          (fun w => containsSub (strLower (c.getD "")) w) = false →
        ActionSubmitTalkToAgentForm.get_priority_from_concern c = "low") := by
  refine ⟨?_, ?_, ?_, ?_, ?_, ?_, ?_, ?_⟩
  · intro d t ht
    simp only [submit_power_outage_priority]
    rw [if_pos (by simpa using ht)]
  · intro d t
    simp only [submit_power_outage_priority, get_priority_from_concern]
    by_cases hct : critical_types.contains t = true
    · rw [if_pos hct]
      exact Or.inl rfl
    · rw [if_neg (by simpa using hct)]
      by_cases hk : critical_keywords.any
          (fun w => containsSub (strLower ((some d).getD "")) w) = true
      · rw [if_pos hk]
        exact Or.inl rfl
      · rw [if_neg hk]
        exact Or.inr rfl
  · intro c hk
    simp only [get_priority_from_concern]
    rw [if_pos hk]
  · intro c hk
    simp only [get_priority_from_concern]
    rw [if_neg (by simp [hk])]
  · intro c h1
    simp only [ActionSubmitTalkToAgentForm.get_priority_from_concern]
    rw [if_pos h1]
  · intro c h1 h2
    simp only [ActionSubmitTalkToAgentForm.get_priority_from_concern]
    rw [if_neg (by simp [h1]), if_pos h2]
  · intro c h1 h2 h3
    simp only [ActionSubmitTalkToAgentForm.get_priority_from_concern]
    rw [if_neg (by simp [h1]), if_neg (by simp [h2]), if_pos h3]
  · intro c h1 h2 h3
    simp only [ActionSubmitTalkToAgentForm.get_priority_from_concern]
    rw [if_neg (by simp [h1]), if_neg (by simp [h2]), if_neg (by simp [h3])]
    by_cases h4 : ["transfer", "new connection", "installation", "application"].any
        (fun w => containsSub (strLower (c.getD "")) w) = true
    · rw [if_pos h4]
    · rw [if_neg h4]

/-- Witness for C5 (amended): concrete classifications through both
classifiers. -/
theorem C5_amended_two_classifiers_witness :
    submit_power_outage_priority "fallen_wire" "lights flickering" =
      "CRITICAL" ∧
    get_priority_from_concern (some "there is a live wire on the road") =
      "CRITICAL" ∧
    get_priority_from_concern (some "no electricity since morning") = "HIGH" ∧
    ActionSubmitTalkToAgentForm.get_priority_from_concern
      (some "question about my billing statement") = "medium" :=
  ⟨C5_amended_two_classifiers.1 "lights flickering" "fallen_wire" (by decide),
   C5_amended_two_classifiers.2.2.1 (some "there is a live wire on the road")
     (by decide),
   C5_amended_two_classifiers.2.2.2.1 (some "no electricity since morning")
     (by decide),
   C5_amended_two_classifiers.2.2.2.2.2.2.1
     (some "question about my billing statement") (by decide) (by decide)
     (by decide)⟩

/-! ## Claim C9 -/

/-- C9 counterexample: the chatbot meter-concern adapter inserts its row with
status PENDING and the chatbot agent-queue adapter with status Pending — not
NEW — so NEW is not the initial status on every intake path. -/
theorem C9_counterexample_pending_initial_status :
    (action_submit_meter_concern [] (some "123456") (some "Juan Cruz")
        (some "Brgy. Bacan, Cabatuan") (some "09171234567")
        (some "broken") "u1" 1 "JO-20250101-0001" 1000 true).1.map (·.status) =
      [some "PENDING"] ∧
    (some "PENDING" : Option String) ≠ some "NEW" ∧
    (action_submit_talk_to_agent_form [] (some "Juan Cruz")
        (some "billing concern") (some "09171234567") "u1" 1 1000
        true).1.map (·.status) = [some "Pending"] ∧
    (some "Pending" : Option String) ≠ some "NEW" := by
  decide

/-- C9 (amended): the chatbot outage adapter, the public web form and all
three SMS branches insert with status NEW, but the chatbot meter-concern
adapter inserts status PENDING and the chatbot agent-queue adapter status
Pending, so NEW is not the only initial status written by the Intake
Adapters. -/
theorem C9_amended_initial_status_per_adapter :
    (∀ a b c d e f g i j2 k l m n o q nid now,
        (webInsertRow a b c d e f g i j2 k l m n o q nid now).status =
          some "NEW") ∧
    (∀ rows fn addr cn uidS nid njoid now today,
        (stableSort (fun a b => tsDescLe a.timestamp b.timestamp)
            (rows.filter (sameDayAddr addr today))).head? = none →
        (action_submit_power_outage_form rows fn addr cn uidS nid njoid
            now today true).rows.map (·.status) =
          rows.map (·.status) ++ [some "NEW"]) ∧
    (∀ st p nid now, p.issue_type = "POWER OUTAGE" →
        ((sms_webhook_insert st p nid now).1.power_outage_reports.map
          (·.status)) =
          st.power_outage_reports.map (·.status) ++ [some "NEW"]) ∧
    (∀ st p nid now, p.issue_type ≠ "POWER OUTAGE" →
        p.issue_type = "BILLING" →
        ((sms_webhook_insert st p nid now).1.meter_concern.map (·.status)) =
          st.meter_concern.map (·.status) ++ [some "NEW"]) ∧
    (∀ st p nid now, p.issue_type ≠ "POWER OUTAGE" →
        p.issue_type ≠ "BILLING" →
        ((sms_webhook_insert st p nid now).1.agent_queue.map (·.status)) =
          st.agent_queue.map (·.status) ++ [some "NEW"]) ∧
    (∀ rows an fn addr cn con uidS nid njoid now,
        pyTruthy an = true → pyTruthy fn = true → pyTruthy addr = true →
        pyTruthy cn = true → pyTruthy con = true →
        (action_submit_meter_concern rows an fn addr cn con uidS nid njoid
            now true).1.map (·.status) =
          rows.map (·.status) ++ [some "PENDING"]) ∧
    (∀ rows fn con cn uidS nid now,
        pyTruthy fn = true → pyTruthy cn = true → pyTruthy con = true →
        (action_submit_talk_to_agent_form rows fn con cn uidS nid now
            true).1.map (·.status) =
          rows.map (·.status) ++ [some "Pending"]) := by
  refine ⟨fun _ _ _ _ _ _ _ _ _ _ _ _ _ _ _ _ _ => rfl, ?_, ?_, ?_, ?_, ?_, ?_⟩
  · intro rows fn addr cn uidS nid njoid now today hh
    simp only [action_submit_power_outage_form, hh]
    rw [if_neg (by simp)]
    simp
  · intro st p nid now hp
    simp only [sms_webhook_insert]
    rw [if_pos hp]
    simp
  · intro st p nid now hp1 hp2
    simp only [sms_webhook_insert]
    rw [if_neg hp1, if_pos hp2]
    simp
  · intro st p nid now hp1 hp2
    simp only [sms_webhook_insert]
    rw [if_neg hp1, if_neg hp2]
    simp
  · intro rows an fn addr cn con uidS nid njoid now h1 h2 h3 h4 h5
    simp only [action_submit_meter_concern]
    rw [if_neg (by simp [h1, h2, h3, h4, h5]), if_neg (by simp)]
    simp
  · intro rows fn con cn uidS nid now h1 h2 h3
    simp only [action_submit_talk_to_agent_form]
    rw [if_neg (by simp [h1, h2, h3]), if_neg (by simp)]
    simp

/-- Witness for C9 (amended): concrete inserts on empty stores. -/
theorem C9_amended_initial_status_per_adapter_witness :
    (action_submit_power_outage_form [] (some "Juan Cruz")
        (some "Brgy. Bacan, Cabatuan, Iloilo") (some "09171234567")
        "u1" 1 "JO-20250101-0001" 1000 0 true).rows.map (·.status) =
      [some "NEW"] ∧
    (action_submit_meter_concern [] (some "123456") (some "Juan Cruz")
        (some "Brgy. Bacan, Cabatuan") (some "09171234567") (some "broken")
        "u1" 1 "JO-20250101-0001" 1000 true).1.map (·.status) =
      [some "PENDING"] :=
  ⟨C9_amended_initial_status_per_adapter.2.1 [] (some "Juan Cruz")
      (some "Brgy. Bacan, Cabatuan, Iloilo") (some "09171234567")
      "u1" 1 "JO-20250101-0001" 1000 0 (by decide),
   C9_amended_initial_status_per_adapter.2.2.2.2.2.1 [] (some "123456")
      (some "Juan Cruz") (some "Brgy. Bacan, Cabatuan") (some "09171234567")
      (some "broken") "u1" 1 "JO-20250101-0001" 1000 (by decide) (by decide)
      (by decide) (by decide) (by decide)⟩
